import Mathlib

/-!
Verification development for the rusty_wren parser.

The development shallowly embeds the source of the repository:
* `src/parser/lexer.rs`  — the regex-driven lexer (token alphabet, numeric
  literal callbacks, skip classes), modelled at the character level with
  maximal-munch disambiguation;
* `src/parser/result.rs` — the `ParseResult` combinator algebra;
* `src/parser/mod.rs`    — the `token!` macro and the `ParseError` type;
* `src/parser/parser.rs` — the grammar rules (`CypherParser`), as fueled
  mutually recursive functions over the token vector.

Machine integers of the source (`i64`, `isize`) are modelled as `Int` with
explicit range checks where the source parse can fail; `f64` literal values
are modelled as exact decimal rationals (`ℚ`): every floating-point value
appearing in the verified statements is an exact decimal, so equality of the
rational models coincides with equality of the parsed doubles there.
-/

set_option maxHeartbeats 1600000

namespace RustyWren

/-- EmptyToken mirrors `ast.rs`: the unit value produced by the `token!`
macro when no result expression is given. -/
structure EmptyToken where
deriving DecidableEq, Repr

/-- Number mirrors `ast.rs`: `Int(i64)`, `Float(f64)`, `Hex(i64)`,
`Binary(isize)`.  Integral kinds become `Int`; the float payload is the exact
decimal rational denoted by the lexeme. -/
inductive Number where
  | Int : Int → Number
  | Float : ℚ → Number
  | Hex : Int → Number
  | Binary : Int → Number
deriving DecidableEq, Repr

/-- Token mirrors the `Token` enum of `lexer.rs` (the `Comment`, `Whitespace`
and `Error` variants are skip/error classes of the lexer and never reach the
token vector, so they are not constructors here).  The `Bang` variant is
modelled from the spec: `parser.rs` matches on `Token::Bang` but its
declaration is not under `src/`; per the spec's token tables it is the exact
punctuation token `!`. -/
inductive Token where
  | Id : String → Token
  | StringLit : String → Token
  | CharLit : String → Token
  | TextBlock : String → Token
  | Digit : Number → Token
  | As | Break | Class | Construct | Continue | Else | False | True
  | For | Foreign | If | Import | In | Is | Null | Return | Static | Var | While
  | LParen | RParen | LBrace | RBrace | LBrack | RBrack
  | Colon | Semi | Comma | Dot
  | Equal | NotEqual | And | Or | Inc | Dec
  | Add | Sub | Mult | Div | BitAnd | BitOr
  | Bang
  | Question | Hash | Gt | Ge | Lt | Le | Tilde | Caret
  | Assign | AddAssign | SubAssign | MultAssign | AndAssign | OrAssign
  | XOrAssign | ModAssign | DivAssign | Mod
  | EllipsisIn | EllipsisOut
  | RShift | LShift | RShiftAssign | LShiftAssign | URShiftAssign
deriving Repr

namespace Token

/-- encodeT injects `Token` into a product of decidable types; all three
components of the code of a token are determined by the token, and decodeT
below inverts the injection, giving decidable equality for the large enum. -/
def encodeT : Token → Nat × String × Number
  | .Id s => (0, s, .Int 0)
  | .StringLit s => (1, s, .Int 0)
  | .CharLit s => (2, s, .Int 0)
  | .TextBlock s => (3, s, .Int 0)
  | .Digit n => (4, "", n)
  | .As => (5, "", .Int 0)
  | .Break => (6, "", .Int 0)
  | .Class => (7, "", .Int 0)
  | .Construct => (8, "", .Int 0)
  | .Continue => (9, "", .Int 0)
  | .Else => (10, "", .Int 0)
  | .False => (11, "", .Int 0)
  | .True => (12, "", .Int 0)
  | .For => (13, "", .Int 0)
  | .Foreign => (14, "", .Int 0)
  | .If => (15, "", .Int 0)
  | .Import => (16, "", .Int 0)
  | .In => (17, "", .Int 0)
  | .Is => (18, "", .Int 0)
  | .Null => (19, "", .Int 0)
  | .Return => (20, "", .Int 0)
  | .Static => (21, "", .Int 0)
  | .Var => (22, "", .Int 0)
  | .While => (23, "", .Int 0)
  | .LParen => (24, "", .Int 0)
  | .RParen => (25, "", .Int 0)
  | .LBrace => (26, "", .Int 0)
  | .RBrace => (27, "", .Int 0)
  | .LBrack => (28, "", .Int 0)
  | .RBrack => (29, "", .Int 0)
  | .Colon => (30, "", .Int 0)
  | .Semi => (31, "", .Int 0)
  | .Comma => (32, "", .Int 0)
  | .Dot => (33, "", .Int 0)
  | .Equal => (34, "", .Int 0)
  | .NotEqual => (35, "", .Int 0)
  | .And => (36, "", .Int 0)
  | .Or => (37, "", .Int 0)
  | .Inc => (38, "", .Int 0)
  | .Dec => (39, "", .Int 0)
  | .Add => (40, "", .Int 0)
  | .Sub => (41, "", .Int 0)
  | .Mult => (42, "", .Int 0)
  | .Div => (43, "", .Int 0)
  | .BitAnd => (44, "", .Int 0)
  | .BitOr => (45, "", .Int 0)
  | .Question => (46, "", .Int 0)
  | .Hash => (47, "", .Int 0)
  | .Gt => (48, "", .Int 0)
  | .Ge => (49, "", .Int 0)
  | .Lt => (50, "", .Int 0)
  | .Le => (51, "", .Int 0)
  | .Tilde => (52, "", .Int 0)
  | .Caret => (53, "", .Int 0)
  | .Assign => (54, "", .Int 0)
  | .AddAssign => (55, "", .Int 0)
  | .SubAssign => (56, "", .Int 0)
  | .MultAssign => (57, "", .Int 0)
  | .AndAssign => (58, "", .Int 0)
  | .OrAssign => (59, "", .Int 0)
  | .XOrAssign => (60, "", .Int 0)
  | .ModAssign => (61, "", .Int 0)
  | .DivAssign => (62, "", .Int 0)
  | .Mod => (63, "", .Int 0)
  | .EllipsisIn => (64, "", .Int 0)
  | .EllipsisOut => (65, "", .Int 0)
  | .RShift => (66, "", .Int 0)
  | .LShift => (67, "", .Int 0)
  | .RShiftAssign => (68, "", .Int 0)
  | .LShiftAssign => (69, "", .Int 0)
  | .URShiftAssign => (70, "", .Int 0)
  | .Bang => (71, "", .Int 0)

/-- decodeT inverts encodeT (on codes in its range). -/
def decodeT : Nat × String × Number → Token
  | (0, s, _) => .Id s
  | (1, s, _) => .StringLit s
  | (2, s, _) => .CharLit s
  | (3, s, _) => .TextBlock s
  | (4, _, n) => .Digit n
  | (5, _, _) => .As
  | (6, _, _) => .Break
  | (7, _, _) => .Class
  | (8, _, _) => .Construct
  | (9, _, _) => .Continue
  | (10, _, _) => .Else
  | (11, _, _) => .False
  | (12, _, _) => .True
  | (13, _, _) => .For
  | (14, _, _) => .Foreign
  | (15, _, _) => .If
  | (16, _, _) => .Import
  | (17, _, _) => .In
  | (18, _, _) => .Is
  | (19, _, _) => .Null
  | (20, _, _) => .Return
  | (21, _, _) => .Static
  | (22, _, _) => .Var
  | (23, _, _) => .While
  | (24, _, _) => .LParen
  | (25, _, _) => .RParen
  | (26, _, _) => .LBrace
  | (27, _, _) => .RBrace
  | (28, _, _) => .LBrack
  | (29, _, _) => .RBrack
  | (30, _, _) => .Colon
  | (31, _, _) => .Semi
  | (32, _, _) => .Comma
  | (33, _, _) => .Dot
  | (34, _, _) => .Equal
  | (35, _, _) => .NotEqual
  | (36, _, _) => .And
  | (37, _, _) => .Or
  | (38, _, _) => .Inc
  | (39, _, _) => .Dec
  | (40, _, _) => .Add
  | (41, _, _) => .Sub
  | (42, _, _) => .Mult
  | (43, _, _) => .Div
  | (44, _, _) => .BitAnd
  | (45, _, _) => .BitOr
  | (46, _, _) => .Question
  | (47, _, _) => .Hash
  | (48, _, _) => .Gt
  | (49, _, _) => .Ge
  | (50, _, _) => .Lt
  | (51, _, _) => .Le
  | (52, _, _) => .Tilde
  | (53, _, _) => .Caret
  | (54, _, _) => .Assign
  | (55, _, _) => .AddAssign
  | (56, _, _) => .SubAssign
  | (57, _, _) => .MultAssign
  | (58, _, _) => .AndAssign
  | (59, _, _) => .OrAssign
  | (60, _, _) => .XOrAssign
  | (61, _, _) => .ModAssign
  | (62, _, _) => .DivAssign
  | (63, _, _) => .Mod
  | (64, _, _) => .EllipsisIn
  | (65, _, _) => .EllipsisOut
  | (66, _, _) => .RShift
  | (67, _, _) => .LShift
  | (68, _, _) => .RShiftAssign
  | (69, _, _) => .LShiftAssign
  | (70, _, _) => .URShiftAssign
  | _ => .Bang

theorem decodeT_encodeT (t : Token) : decodeT (encodeT t) = t := by
  cases t <;> rfl

instance : DecidableEq Token := fun a b =>
  decidable_of_iff (encodeT a = encodeT b)
    ⟨fun h => by
        have := congrArg decodeT h
        rwa [decodeT_encodeT, decodeT_encodeT] at this,
      fun h => by rw [h]⟩

end Token

/-- ParseError mirrors `mod.rs`; byte spans are `Nat × Nat`. -/
inductive ParseError where
  | BadToken : String → Nat × Nat → ParseError
  | FailedOnValidation : String → Nat → ParseError
  | FinishedOnFail : ParseError
  | ReachedEOF : Nat → ParseError
  | UnreachedEOF : Nat → ParseError
deriving DecidableEq, Repr

/-- ParseResult mirrors `result.rs`: `Success(value, nextPos)`,
`Fail(farthestPos)`, `Error(kind)`. -/
inductive ParseResult (T : Type) where
  | Success : T → Nat → ParseResult T
  | Fail : Nat → ParseResult T
  | Error : ParseError → ParseResult T
deriving Repr

namespace ParseResult

variable {T L R K Res Rhs : Type}

/-- map mirrors `ParseResult::map`. -/
def map (self : ParseResult T) (mapper : T → Rhs) : ParseResult Rhs :=
  match self with
  | .Success t pos => .Success (mapper t) pos
  | .Fail pos => .Fail pos
  | .Error e => .Error e

/-- ok mirrors `ParseResult::ok`. -/
def ok (self : ParseResult T) : ParseResult (Option T) :=
  self.map (fun x => some x)

/-- take_left mirrors `ParseResult::take_left`. -/
def take_left (self : ParseResult (L × R)) : ParseResult L :=
  self.map (fun s => s.1)

/-- take_right mirrors `ParseResult::take_right`. -/
def take_right (self : ParseResult (L × R)) : ParseResult R :=
  self.map (fun s => s.2)

/-- merge mirrors `ParseResult::merge` on `(head, rest)` pairs: prepend the
head to the collected tail. -/
def merge (self : ParseResult (L × List L)) : ParseResult (List L) :=
  self.map (fun hr => hr.1 :: hr.2)

/-- then_combine mirrors `ParseResult::then_combine`. -/
def then_combine (self : ParseResult T) (thenF : Nat → ParseResult Rhs)
    (combine : T → Rhs → Res) : ParseResult Res :=
  match self with
  | .Success t pos =>
    match thenF pos with
    | .Success r pos => .Success (combine t r) pos
    | .Fail pos => .Fail pos
    | .Error e => .Error e
  | .Fail pos => .Fail pos
  | .Error e => .Error e

/-- then_zip mirrors `ParseResult::then_zip`. -/
def then_zip (self : ParseResult T) (thenF : Nat → ParseResult Res) :
    ParseResult (T × Res) :=
  self.then_combine thenF (fun a b => (a, b))

/-- multiLoop is the greedy collection loop inside
`ParseResult::then_multi_combine` (`loop { match then(pos) ... }`), made
total with a fuel parameter; fuel exhaustion stops the loop early, which
never happens at the fuel values used by the theorems below. -/
def multiLoop (thenF : Nat → ParseResult K) : Nat → Nat → List K → List K × Nat
  | 0, pos, vals => (vals, pos)
  | fuel + 1, pos, vals =>
    match thenF pos with
    | .Success r nextPos => multiLoop thenF fuel nextPos (vals ++ [r])
    | _ => (vals, pos)

/-- then_multi_combine mirrors `ParseResult::then_multi_combine`. -/
def then_multi_combine (fuel : Nat) (self : ParseResult T)
    (thenF : Nat → ParseResult K) (combine : T → List K → Res) : ParseResult Res :=
  match self with
  | .Success t pos =>
    let vp := multiLoop thenF fuel pos []
    .Success (combine t vp.1) vp.2
  | .Fail pos => .Fail pos
  | .Error e => .Error e

/-- then_multi_zip mirrors `ParseResult::then_multi_zip`. -/
def then_multi_zip (fuel : Nat) (self : ParseResult T)
    (thenF : Nat → ParseResult R) : ParseResult (T × List R) :=
  self.then_multi_combine fuel thenF (fun f v => (f, v))

/-- then_or_val_combine mirrors `ParseResult::then_or_val_combine`: the
continuation's `Fail` or `ReachedEOF` is replaced by the default value at the
continuation's position. -/
def then_or_val_combine (self : ParseResult T) (thenF : Nat → ParseResult Rhs)
    (dflt : Rhs) (combine : T → Rhs → Res) : ParseResult Res :=
  match self with
  | .Success t pos =>
    match thenF pos with
    | .Success r pos => .Success (combine t r) pos
    | .Fail pos => .Success (combine t dflt) pos
    | .Error (.ReachedEOF pos) => .Success (combine t dflt) pos
    | .Error e => .Error e
  | .Fail pos => .Fail pos
  | .Error e => .Error e

/-- then_or_val_zip mirrors `ParseResult::then_or_val_zip`. -/
def then_or_val_zip (self : ParseResult T) (thenF : Nat → ParseResult Res)
    (dflt : Res) : ParseResult (T × Res) :=
  self.then_or_val_combine thenF dflt (fun a b => (a, b))

/-- then_or_none_combine mirrors `ParseResult::then_or_none_combine`. -/
def then_or_none_combine (self : ParseResult T)
    (thenF : Nat → ParseResult (Option Rhs))
    (combine : T → Option Rhs → Res) : ParseResult Res :=
  self.then_or_val_combine thenF none combine

/-- then_or_none_zip mirrors `ParseResult::then_or_none_zip`. -/
def then_or_none_zip (self : ParseResult T)
    (thenF : Nat → ParseResult (Option Rhs)) : ParseResult (T × Option Rhs) :=
  self.then_or_none_combine thenF (fun a b => (a, b))

/-- then_or_default_zip mirrors `ParseResult::then_or_default_zip`; the
`Default` instance of the source is the `Inhabited` default here. -/
def then_or_default_zip [Inhabited Rhs] (self : ParseResult T)
    (thenF : Nat → ParseResult Rhs) : ParseResult (T × Rhs) :=
  self.then_or_val_zip thenF default

/-- thenP mirrors `ParseResult::then` (sequence, discarding the left value;
`then` is a reserved word in Lean). -/
def thenP (self : ParseResult T) (thenF : Nat → ParseResult Rhs) :
    ParseResult Rhs :=
  self.then_combine thenF (fun _ k => k)

/-- or_val mirrors `ParseResult::or_val`. -/
def or_val (self : ParseResult T) (dflt : T) : ParseResult T :=
  match self with
  | .Fail pos => .Success dflt pos
  | .Error (.ReachedEOF pos) => .Success dflt pos
  | other => other

/-- or_none mirrors `ParseResult::or_none`. -/
def or_none (self : ParseResult T) : ParseResult (Option T) :=
  (self.map (fun x => some x)).or_val none

/-- then_or_val mirrors `ParseResult::then_or_val`. -/
def then_or_val (self : ParseResult T) (thenF : Nat → ParseResult Rhs)
    (dflt : Rhs) : ParseResult Rhs :=
  match self with
  | .Success _ pos => (thenF pos).or_val dflt
  | other => other.map (fun _ => dflt)

/-- then_or_default mirrors `ParseResult::then_or_default` (same body as
`then_or_val` at the type's default value). -/
def then_or_default [Inhabited Rhs] (self : ParseResult T)
    (thenF : Nat → ParseResult Rhs) : ParseResult Rhs :=
  self.then_or_val thenF default

/-- then_or_none mirrors `ParseResult::then_or_none`. -/
def then_or_none (self : ParseResult T)
    (thenF : Nat → ParseResult (Option Rhs)) : ParseResult (Option Rhs) :=
  self.then_or_val thenF none

/-- or mirrors `ParseResult::or`: soft failures invoke the next alternative
at the failure position. -/
def or (self : ParseResult T) (next : Nat → ParseResult T) : ParseResult T :=
  match self with
  | .Fail pos => next pos
  | .Error (.ReachedEOF pos) => next pos
  | other => other

/-- Modelled from the spec: `or_last` is called by `parser.rs` but its
definition is not under `src/`; per the design notes it is the alternation
variant that threads the farthest (failure) position into the next
alternative, with only `Fail` and `ReachedEOF` triggering it — the same
propagation behaviour as `or`. -/
def or_last (self : ParseResult T) (next : Nat → ParseResult T) : ParseResult T :=
  match self with
  | .Fail pos => next pos
  | .Error (.ReachedEOF pos) => next pos
  | other => other

/-- combine mirrors `ParseResult::combine`. -/
def combine (self : ParseResult T) (other : ParseResult Rhs)
    (comb : T → Rhs → Res) : ParseResult Res :=
  match self, other with
  | .Success t l, .Success k r => .Success (comb t k) (max l r)
  | .Fail l, .Fail r => .Fail (max l r)
  | .Error e, _ => .Error e
  | _, .Error e => .Error e
  | .Fail pos, _ => .Fail pos
  | _, .Fail pos => .Fail pos

/-- validate mirrors `ParseResult::validate`. -/
def validate (self : ParseResult T) (check : T → Except String Unit) :
    ParseResult T :=
  match self with
  | .Success r pos =>
    match check r with
    | .ok _ => .Success r pos
    | .error mes => .Error (.FailedOnValidation mes pos)
  | other => other

end ParseResult

/-- Alt mirrors the `Alt` struct of `result.rs`: an in-flight anchored
alternation, remembering the anchor `init_pos`. -/
structure Alt (T : Type) where
  init_pos : Nat
  current : ParseResult T

/-- or_from mirrors `ParseResult::or_from`. -/
def ParseResult.or_from {T : Type} (self : ParseResult T) (pos : Nat) : Alt T :=
  { init_pos := pos, current := self }

namespace Alt

variable {T : Type}

/-- next mirrors `Alt::next`: run the next alternative from the anchor. -/
def next (self : Alt T) (nextF : Nat → ParseResult T) : Alt T :=
  { init_pos := self.init_pos, current := nextF self.init_pos }

/-- or mirrors `Alt::or`: only `Fail` and `ReachedEOF` trigger the next
alternative, which restarts at the anchor. -/
def or (self : Alt T) (nextF : Nat → ParseResult T) : Alt T :=
  match self.current with
  | .Fail _ => self.next nextF
  | .Error (.ReachedEOF _) => self.next nextF
  | other => { init_pos := self.init_pos, current := other }

/-- toResult mirrors `impl Into<ParseResult> for Alt`. -/
def toResult (self : Alt T) : ParseResult T :=
  self.current

end Alt

/-- intoResult mirrors `impl Into<Result<T, ParseError>> for ParseResult`:
the top-level conversion turning a final `Fail` into `FinishedOnFail`. -/
def ParseResult.intoResult {T : Type} (self : ParseResult T) :
    Except ParseError T :=
  match self with
  | .Success t _ => .ok t
  | .Fail _ => .error .FinishedOnFail
  | .Error e => .error e

/-! AST, mirroring `ast.rs`.  Borrowed string slices become `String`;
`Box`, `Vec` and `Option` become direct nesting, `List` and `Option`. -/

/-- Id mirrors `ast.rs`. -/
structure Id where
  value : String
deriving DecidableEq, Repr

/-- Params mirrors `ast.rs`; its `Default` is the empty parameter list. -/
structure Params where
  ids : List Id
deriving DecidableEq, Repr

instance : Inhabited Params := ⟨{ ids := [] }⟩

/-- ImportVariable mirrors `ast.rs` (`alias` and `variables` below are
keywords in Lean, hence the trailing underscore). -/
structure ImportVariable where
  name : Id
  alias_ : Option Id
deriving DecidableEq, Repr

/-- ImportModule mirrors `ast.rs`. -/
structure ImportModule where
  name : String
  variables_ : List ImportVariable
deriving DecidableEq, Repr

/-- LogicOp mirrors `ast.rs`. -/
inductive LogicOp where
  | Gt | Lt | Eq | Le | Ge | NotEq | Or | And
deriving DecidableEq, Repr

/-- MulSign mirrors `ast.rs`. -/
inductive MulSign where
  | Mul | Div | Mod
deriving DecidableEq, Repr

/-- BitSign mirrors `ast.rs`. -/
inductive BitSign where
  | And | Or | Xor
deriving DecidableEq, Repr

/-- GetterLabel mirrors `ast.rs`. -/
inductive GetterLabel where
  | Id : Id → GetterLabel
  | Sub | Tilde | Bang
deriving DecidableEq, Repr

/-- SetterLabel mirrors `ast.rs`. -/
inductive SetterLabel where
  | Sub | Mul | Div | Mod | Add | EllipsisIn | EllipsisOut | LShift | RShift
  | BitAnd | BitOr | BitXor | Gt | Lt | Eq | Le | Ge | NotEq | Is
deriving DecidableEq, Repr

/-- AssignOp mirrors `ast.rs`. -/
inductive AssignOp where
  | Assign | Add | Sub | Mul | Div | And | Or | Xor | Mod
  | LShift | RShift | URShift
deriving DecidableEq, Repr

/-- ClassBodyType mirrors `ast.rs`; its `Default` impl returns `None`. -/
inductive ClassBodyType where
  | Foreign | Static | ForeignStatic | None
deriving DecidableEq, Repr

instance : Inhabited ClassBodyType := ⟨ClassBodyType.None⟩

mutual

/-- AtomExpression mirrors `ast.rs`. -/
inductive AtomExpression where
  | Null : AtomExpression
  | Bool : Bool → AtomExpression
  | CharLit : String → AtomExpression
  | StringLit : String → AtomExpression
  | Number : Number → AtomExpression
  | MapInit : List (Expression × Expression) → AtomExpression
  | ListInit : Enumeration → AtomExpression
  | Call : Call → AtomExpression
  | Range : Range → AtomExpression
  | Break : AtomExpression
  | Continue : AtomExpression
  | CollectionElem : Call → Enumeration → AtomExpression
  | ImportModule : ImportModule → AtomExpression
  | Sub : AtomExpression → AtomExpression

/-- Enumeration mirrors `ast.rs`; its `Default` is the empty list of values. -/
inductive Enumeration where
  | mk : List Expression → Enumeration

/-- Elvis mirrors `ast.rs`: `lhs` and `rhs` of `? lhs : rhs`. -/
inductive Elvis where
  | mk : Expression → Expression → Elvis

/-- Expression mirrors `ast.rs`. -/
inductive Expression where
  | Atom : AtomExpression → Expression
  | Compound : Expression → CompoundExpression → Expression
  | Not : Expression → Expression
  | E : Expression

/-- CompoundExpression mirrors `ast.rs`. -/
inductive CompoundExpression where
  | Logic : Logic → CompoundExpression
  | Arith : Arithmetic → CompoundExpression
  | Tail : Call → CompoundExpression
  | Is : Expression → CompoundExpression
  | Elvis : Elvis → CompoundExpression

/-- Logic mirrors `ast.rs`. -/
inductive Logic where
  | Atom : LogicOp → Expression → Logic
  | And : Logic → List (Expression × Logic) → Logic
  | Or : Logic → List (Expression × Logic) → Logic

/-- Arithmetic mirrors `ast.rs`. -/
inductive Arithmetic where
  | Expression : Expression → Arithmetic
  | Mul : MulSign → Expression → Arithmetic
  | Add : Bool → Arithmetic → Arithmetic
  | Range : Bool → Arithmetic → Arithmetic
  | Shift : Bool → Arithmetic → Arithmetic
  | Bit : BitSign → Arithmetic → Arithmetic

/-- RangeExpression mirrors `ast.rs`. -/
inductive RangeExpression where
  | Call : Call → RangeExpression
  | Num : Number → RangeExpression

/-- Range mirrors `ast.rs`: `left`, `right`, `is_out`. -/
inductive Range where
  | mk : RangeExpression → RangeExpression → Bool → Range

/-- Call mirrors `ast.rs`: `id`, `tail`, `middle`. -/
inductive Call where
  | mk : Id → Option Call → BlockOrEnum → Call

/-- BlockOrEnum mirrors `ast.rs`. -/
inductive BlockOrEnum where
  | Block : Block → BlockOrEnum
  | Enum : Enumeration → BlockOrEnum
  | None : BlockOrEnum

/-- Block mirrors `ast.rs`: `params`, `statements`. -/
inductive Block where
  | mk : Params → List Statement → Block

/-- Statement mirrors `ast.rs`. -/
inductive Statement where
  | Expression : Expression → Statement
  | Assignment : Assignment → Statement
  | AssignmentNull : AssignmentNull → Statement
  | If : If → Statement
  | While : While → Statement
  | For : For → Statement
  | Block : Block → Statement
  | Return : Expression → Statement

/-- AssignmentNull mirrors `ast.rs`. -/
inductive AssignmentNull where
  | mk : Id → AssignmentNull

/-- Assignment mirrors `ast.rs`: `var`, `op`, `lhs`, `rhs`. -/
inductive Assignment where
  | mk : Bool → AssignOp → Expression → Rhs → Assignment

/-- Rhs mirrors `ast.rs`. -/
inductive Rhs where
  | Expression : Expression → Rhs
  | Assignment : Assignment → Rhs
  | Assignments : List Assignment → Rhs

/-- IfBranch mirrors `ast.rs`: `cond`, `action`. -/
inductive IfBranch where
  | mk : Expression → Statement → IfBranch

/-- If mirrors `ast.rs`: `main`, `others`, `els`. -/
inductive If where
  | mk : IfBranch → List IfBranch → Option Statement → If

/-- WhileCond mirrors `ast.rs`. -/
inductive WhileCond where
  | Expression : Expression → WhileCond
  | Assignment : Assignment → WhileCond

/-- While mirrors `ast.rs`: `cond`, `body`. -/
inductive While where
  | mk : WhileCond → Statement → While

/-- For mirrors `ast.rs`: `elem`, `collection`, `body`. -/
inductive For where
  | mk : Id → Expression → Statement → For

end

instance : Inhabited Enumeration := ⟨Enumeration.mk []⟩

/-- just_id mirrors `Call::just_id`. -/
def Call.just_id (idv : String) : Call :=
  Call.mk { value := idv } none BlockOrEnum.None

/-- AttributeValue mirrors `ast.rs`. -/
structure AttributeValue where
  id : Id
  expr : Option AtomExpression

/-- Attribute mirrors `ast.rs`. -/
inductive Attribute where
  | Simple : Bool → AttributeValue → Attribute
  | Group : Bool → Id → List AttributeValue → Attribute

/-- Function mirrors `ast.rs`: `name`, `params`, `block`. -/
structure Function where
  name : Id
  params : Params
  block : Option Block

/-- ClassStatement mirrors `ast.rs`. -/
inductive ClassStatement where
  | Fn : Function → ClassStatement
  | OpGetter : GetterLabel → Option Block → ClassStatement
  | Setter : Id → Id → Block → ClassStatement
  | OpSetter : SetterLabel → Id → Block → ClassStatement
  | SubscriptGet : Enumeration → Block → ClassStatement
  | SubscriptSet : Enumeration → Id → Block → ClassStatement
  | Constructor : Id → Params → Block → ClassStatement

/-- ClassUnit mirrors `ast.rs`: `attributes`, `tpe`, `statement`. -/
structure ClassUnit where
  attributes : List Attribute
  tpe : ClassBodyType
  statement : ClassStatement

/-- ClassDefinition mirrors `ast.rs`. -/
structure ClassDefinition where
  attributes : List Attribute
  foreign : Bool
  name : Id
  inherit : Option Id
  elems : List ClassUnit

/-- Unit mirrors `ast.rs` (the file-level unit of a script). -/
inductive Unit where
  | Class : ClassDefinition → Unit
  | Fn : Function → Unit
  | Import : ImportModule → Unit
  | Statement : Statement → Unit
  | Block : Block → Unit

/-- Script mirrors `ast.rs`. -/
structure Script where
  units : List Unit

/-! Lexer, mirroring `lexer.rs`.  The logos-generated lexer is modelled at
the character level: each token pattern is a matcher computing the length of
its longest match at the current prefix, and disambiguation is maximal munch
(longest match wins; on equal length a literal `#[token]` beats a regex,
which is how logos prioritises keywords over the identifier regex).  Byte
spans become character-index spans (all verified inputs are ASCII). -/

namespace Lexer

/-- isLetterC is the `letter` subpattern `[a-zA-Z_]`. -/
def isLetterC (c : Char) : Bool :=
  (('a' ≤ c && c ≤ 'z') || ('A' ≤ c && c ≤ 'Z') || c = '_')

/-- isHexC is the hex-digit class `[0-9a-f]` of the hex pattern. -/
def isHexC (c : Char) : Bool :=
  c.isDigit || ('a' ≤ c && c ≤ 'f')

/-- isBitC is the bit class `[01]` of the binary pattern. -/
def isBitC (c : Char) : Bool :=
  c = '0' || c = '1'

/-- rtrimUnderscore drops trailing underscores (the `digit` subpattern must
end in a digit). -/
def rtrimUnderscore (l : List Char) : List Char :=
  (l.reverse.dropWhile (fun c => c = '_')).reverse

/-- digitsLen is the longest match of the subpattern
`[0-9]([0-9_]*[0-9])?` at the prefix. -/
def digitsLen (cs : List Char) : Nat :=
  let run := cs.takeWhile (fun c => c.isDigit || c = '_')
  match run with
  | [] => 0
  | c :: _ => if c.isDigit then (rtrimUnderscore run).length else 0

/-- hexDigitsLen is the longest match of
`[0-9a-f](([0-9a-f]|[_])*[0-9a-f])?`. -/
def hexDigitsLen (cs : List Char) : Nat :=
  let run := cs.takeWhile (fun c => isHexC c || c = '_')
  match run with
  | [] => 0
  | c :: _ => if isHexC c then (rtrimUnderscore run).length else 0

/-- signedLen prepends the optional `-?` to an unsigned matcher. -/
def signedLen (inner : List Char → Nat) (cs : List Char) : Nat :=
  match cs with
  | '-' :: rest => (if inner rest = 0 then 0 else inner rest + 1)
  | _ => inner cs

/-- intLen is the longest match of the plain integer pattern `-?(?&digit)`. -/
def intLen (cs : List Char) : Nat :=
  signedLen digitsLen cs

/-- expLen is the longest match of the `exp` subpattern `[eE][+-]?[0-9]+`. -/
def expLen (cs : List Char) : Nat :=
  match cs with
  | c :: rest =>
    if c = 'e' || c = 'E' then
      match rest with
      | c2 :: r2 =>
        if c2 = '+' || c2 = '-' then
          (if (r2.takeWhile Char.isDigit).length = 0 then 0
           else 2 + (r2.takeWhile Char.isDigit).length)
        else
          (if (rest.takeWhile Char.isDigit).length = 0 then 0
           else 1 + (rest.takeWhile Char.isDigit).length)
      | [] => 0
    else 0
  | [] => 0

/-- intExpLen is the longest match of `-?(?&digit)(?&exp)` (integer with
exponent, lexed as a float). -/
def intExpLen (cs : List Char) : Nat :=
  let i := intLen cs
  if i = 0 then 0
  else
    let e := expLen (cs.drop i)
    if e = 0 then 0 else i + e

/-- floatSuffixLen is the optional `[fFdD]?` suffix. -/
def floatSuffixLen (cs : List Char) : Nat :=
  match cs with
  | c :: _ => if c = 'f' || c = 'F' || c = 'd' || c = 'D' then 1 else 0
  | [] => 0

/-- floatLen is the longest match of
`-?(?&digit)?\.(?&digit)(?&exp)?[fFdD]?`. -/
def floatLen (cs : List Char) : Nat :=
  let sg : Nat := match cs with | '-' :: _ => 1 | _ => 0
  let cs1 := cs.drop sg
  let d1 := digitsLen cs1
  match cs1.drop d1 with
  | '.' :: cs3 =>
    let d2 := digitsLen cs3
    if d2 = 0 then 0
    else
      let e := expLen (cs3.drop d2)
      sg + d1 + 1 + d2 + e + floatSuffixLen ((cs3.drop d2).drop e)
  | _ => 0

/-- binaryLen is the longest match of `0[bB][01][01]*`. -/
def binaryLen (cs : List Char) : Nat :=
  match cs with
  | '0' :: b :: rest =>
    if b = 'b' || b = 'B' then
      (if (rest.takeWhile isBitC).length = 0 then 0
       else 2 + (rest.takeWhile isBitC).length)
    else 0
  | _ => 0

/-- hexLen is the longest match of
`-?0x[0-9a-f](([0-9a-f]|[_])*[0-9a-f])?`. -/
def hexLen (cs : List Char) : Nat :=
  signedLen
    (fun l =>
      match l with
      | '0' :: 'x' :: r => (if hexDigitsLen r = 0 then 0 else 2 + hexDigitsLen r)
      | _ => 0)
    cs

/-- idLen is the longest match of the identifier pattern
`(?i)(?&letter)((?&letter)|(?&digit))*`, equivalently
`[A-Za-z_][A-Za-z0-9_]*`. -/
def idLen (cs : List Char) : Nat :=
  match cs with
  | c :: _ =>
    if isLetterC c then (cs.takeWhile (fun c => isLetterC c || c.isDigit)).length
    else 0
  | [] => 0

/-- strBodyLen scans the body of a quoted literal with the escape set
`\t \u \n \<quote>` of the source regexes; it returns the body length when
the scan stops at an unescaped closing quote, `none` when the literal is
unterminated or holds a bad escape. -/
def strBodyLen (q : Char) : List Char → Option Nat
  | [] => none
  | c :: rest =>
    if c = q then some 0
    else if c = '\\' then
      match rest with
      | c2 :: r2 =>
        if c2 = 't' || c2 = 'u' || c2 = 'n' || c2 = q then
          (strBodyLen q r2).map (fun n => n + 2)
        else none
      | [] => none
    else (strBodyLen q rest).map (fun n => n + 1)

/-- stringLitLen is the longest match of `"([^"\\]|\\t|\\u|\\n|\\")*"`. -/
def stringLitLen (cs : List Char) : Nat :=
  match cs with
  | '"' :: rest =>
    match strBodyLen '"' rest with
    | some b => b + 2
    | none => 0
  | _ => 0

/-- charLitLen is the longest match of `'([^'\\]|\\t|\\u|\\n|\\')*'`. -/
def charLitLen (cs : List Char) : Nat :=
  match cs with
  | '\'' :: rest =>
    match strBodyLen '\'' rest with
    | some b => b + 2
    | none => 0
  | _ => 0

/-- textBlockLen is the longest match of
`"""([^"\\]|\\t|\\u|\\n|\\")*"""`. -/
def textBlockLen (cs : List Char) : Nat :=
  if cs.take 3 = ['"', '"', '"'] then
    match strBodyLen '"' (cs.drop 3) with
    | some b =>
      if (cs.drop (3 + b)).take 3 = ['"', '"', '"'] then b + 6 else 0
    | none => 0
  else 0

/-- blockCommentLen is the longest match of the dot-all comment pattern
`/\*.*\*/`: greedy `.*` runs to the last `*/` of the remaining input. -/
def blockCommentLen (cs : List Char) : Nat :=
  if cs.take 2 = ['/', '*'] then
    (List.range (cs.length + 1)).foldl
      (fun acc n =>
        if 4 ≤ n ∧ (cs.take n).reverse.take 2 = ['/', '*'] then max acc n else acc)
      0
  else 0

/-- lineCommentLen is the longest match of `//[^\r\n]*`. -/
def lineCommentLen (cs : List Char) : Nat :=
  if cs.take 2 = ['/', '/'] then
    2 + ((cs.drop 2).takeWhile (fun c => !(c = '\r' || c = '\n'))).length
  else 0

/-- wsLen is the longest match of the whitespace pattern
`[ \t\r\n\u000C\f]+`. -/
def wsLen (cs : List Char) : Nat :=
  (cs.takeWhile (fun c =>
    c = ' ' || c = '\t' || c = '\r' || c = '\n' || c = '\x0C')).length

/-- literals lists every `#[token(...)]` literal of `lexer.rs` with its
token, plus the spec-modelled `!` literal for `Bang` (see the `Token`
declaration). -/
def literals : List (String × Token) :=
  [("AS", .As), ("break", .Break), ("class", .Class), ("construct", .Construct),
   ("continue", .Continue), ("else", .Else), ("false", .False), ("true", .True),
   ("for", .For), ("foreign", .Foreign), ("if", .If), ("import", .Import),
   ("in", .In), ("is", .Is), ("null", .Null), ("return", .Return),
   ("static", .Static), ("var", .Var), ("while", .While),
   ("(", .LParen), (")", .RParen), ("\x7b", .LBrace), ("\x7d", .RBrace),
   ("[", .LBrack), ("]", .RBrack), (":", .Colon), (";", .Semi), (",", .Comma),
   (".", .Dot), ("==", .Equal), ("!=", .NotEqual), ("!", .Bang),
   ("&&", .And), ("||", .Or),
   ("++", .Inc), ("--", .Dec), ("+", .Add), ("-", .Sub), ("*", .Mult),
   ("/", .Div), ("&", .BitAnd), ("|", .BitOr), ("?", .Question), ("#", .Hash),
   (">", .Gt), (">=", .Ge), ("<", .Lt), ("<=", .Le), ("~", .Tilde),
   ("^", .Caret), ("=", .Assign), ("+=", .AddAssign), ("-=", .SubAssign),
   ("*=", .MultAssign), ("&=", .AndAssign), ("|=", .OrAssign),
   ("^=", .XOrAssign), ("%=", .ModAssign), ("/=", .DivAssign), ("%", .Mod),
   ("..", .EllipsisIn), ("...", .EllipsisOut), (">>", .RShift),
   ("<<", .LShift), (">>=", .RShiftAssign), ("<<=", .LShiftAssign),
   (">>>=", .URShiftAssign)]

/-- bestLiteral returns the longest literal token matching the prefix. -/
def bestLiteral (cs : List Char) : Nat × Option Token :=
  literals.foldl
    (fun acc st =>
      let l := st.1.toList
      if cs.take l.length = l ∧ acc.1 < l.length then (l.length, some st.2)
      else acc)
    (0, none)

/-- RegexClass tags the regex-based patterns of the token enum (the three
skip classes included). -/
inductive RegexClass where
  | id | stringLit | charLit | textBlock
  | intNum | intExp | floatNum | binaryNum | hexNum
  | blockComment | lineComment | whitespace
deriving DecidableEq, Repr

/-- regexCands pairs every regex pattern with its match length at the
prefix. -/
def regexCands (cs : List Char) : List (Nat × RegexClass) :=
  [(textBlockLen cs, .textBlock), (stringLitLen cs, .stringLit),
   (charLitLen cs, .charLit), (binaryLen cs, .binaryNum),
   (hexLen cs, .hexNum), (floatLen cs, .floatNum), (intExpLen cs, .intExp),
   (intLen cs, .intNum), (idLen cs, .id), (blockCommentLen cs, .blockComment),
   (lineCommentLen cs, .lineComment), (wsLen cs, .whitespace)]

/-- bestRegex returns the longest-matching regex pattern at the prefix. -/
def bestRegex (cs : List Char) : Nat × Option RegexClass :=
  (regexCands cs).foldl
    (fun acc c => if acc.1 < c.1 then (c.1, some c.2) else acc)
    (0, none)

/-- digitsVal reads a decimal digit run. -/
def digitsVal (l : List Char) : Nat :=
  l.foldl (fun a c => a * 10 + (c.toNat - '0'.toNat)) 0

/-- hexDigitVal reads one hex digit (both cases, as
`i64::from_str_radix` accepts). -/
def hexDigitVal (c : Char) : Nat :=
  if c.isDigit then c.toNat - '0'.toNat
  else if 'a' ≤ c && c ≤ 'f' then c.toNat - 'a'.toNat + 10
  else if 'A' ≤ c && c ≤ 'F' then c.toNat - 'A'.toNat + 10
  else 0

/-- hexVal reads a hex digit run. -/
def hexVal (l : List Char) : Nat :=
  l.foldl (fun a c => a * 16 + hexDigitVal c) 0

/-- parseI64 models `str::parse::<i64>` on the matched slice: an optional
sign, then decimal digits only (an underscore makes the parse fail), within
the `i64` range.  Mirrors the `number` callback of `lexer.rs`. -/
def parseI64 (l : List Char) : Option Int :=
  let sg : Int := match l with | '-' :: _ => -1 | _ => 1
  let ds := match l with | '-' :: r => r | '+' :: r => r | _ => l
  if ds ≠ [] ∧ ds.all Char.isDigit then
    let v : Int := sg * (digitsVal ds : Nat)
    if -(2 ^ 63) ≤ v ∧ v ≤ 2 ^ 63 - 1 then some v else none
  else none

/-- parseF64q models `str::parse::<f64>` on the matched slice, with the
value kept as an exact decimal rational: optional sign, decimal mantissa
with an optional fractional part, optional decimal exponent; underscores or
an `f`/`d` suffix make the parse fail, as they do in Rust.  Mirrors the
`float` callback of `lexer.rs`. -/
def parseF64q (l : List Char) : Option ℚ :=
  let sg : Int := match l with | '-' :: _ => -1 | _ => 1
  let l1 := match l with | '-' :: r => r | '+' :: r => r | _ => l
  let ip := l1.takeWhile Char.isDigit
  let l2 := l1.drop ip.length
  let fp := match l2 with
    | '.' :: r => r.takeWhile Char.isDigit
    | _ => []
  let l3 := match l2 with
    | '.' :: r => r.drop (r.takeWhile Char.isDigit).length
    | _ => l2
  let value : Int → Option ℚ := fun ev =>
    let e : Int := ev - fp.length
    let m : Int := sg * (digitsVal (ip ++ fp) : Nat)
    if 0 ≤ e then some (mkRat (m * 10 ^ e.toNat) 1)
    else some (mkRat m (10 ^ (-e).toNat))
  if ip = [] ∧ fp = [] then none
  else
    match l3 with
    | [] => value 0
    | c :: r =>
      if c = 'e' ∨ c = 'E' then
        let es : Int := match r with | '-' :: _ => -1 | _ => 1
        let r2 := match r with | '-' :: rr => rr | '+' :: rr => rr | _ => r
        let ed := r2.takeWhile Char.isDigit
        if ed = [] ∨ r2.drop ed.length ≠ [] then none
        else value (es * (digitsVal ed : Nat))
      else none

/-- parseBinaryNum models the `binary` callback:
`isize::from_str_radix(&slice[2..], 2)` on a 64-bit platform. -/
def parseBinaryNum (l : List Char) : Option Int :=
  let bits := l.drop 2
  let v : Nat := bits.foldl (fun a c => a * 2 + (if c = '1' then 1 else 0)) 0
  if (v : Int) ≤ 2 ^ 63 - 1 then some (v : Int) else none

/-- trim0x models `str::trim_start_matches("0x")`: every leading `0x`
occurrence is removed. -/
def trim0x : List Char → List Char
  | '0' :: 'x' :: rest => trim0x rest
  | l => l

/-- isHexAny accepts both cases, as `from_str_radix` does. -/
def isHexAny (c : Char) : Bool :=
  c.isDigit || ('a' ≤ c && c ≤ 'f') || ('A' ≤ c && c ≤ 'F')

/-- parseHexNum models the `hex` callback:
`i64::from_str_radix(slice.trim_start_matches("0x"), 16)`. -/
def parseHexNum (l : List Char) : Option Int :=
  let t := trim0x l
  let sg : Int := match t with | '-' :: _ => -1 | _ => 1
  let ds := match t with | '-' :: r => r | '+' :: r => r | _ => t
  if ds ≠ [] ∧ ds.all isHexAny then
    let v : Int := sg * (hexVal ds : Nat)
    if -(2 ^ 63) ≤ v ∧ v ≤ 2 ^ 63 - 1 then some v else none
  else none

/-- munch classifies the longest token at the prefix: the winning pattern
(literal beating regex on equal length), the number callbacks on the slice,
and the skip classes yielding no token.  An unmatched or callback-rejected
prefix is the `BadToken` error, as in `CypherLexer::new`. -/
def munch (cs : List Char) (offset : Nat) : Except ParseError (Option Token × Nat) :=
  let lit := bestLiteral cs
  let reg := bestRegex cs
  if lit.1 = 0 ∧ reg.1 = 0 then
    .error (.BadToken (String.mk (cs.take 1)) (offset, offset + 1))
  else if reg.1 ≤ lit.1 then
    match lit.2 with
    | some t => .ok (some t, lit.1)
    | none => .error (.BadToken (String.mk (cs.take 1)) (offset, offset + 1))
  else
    let slice := cs.take reg.1
    let badTok : Except ParseError (Option Token × Nat) :=
      .error (.BadToken (String.mk slice) (offset, offset + reg.1))
    match reg.2 with
    | some .id => .ok (some (.Id (String.mk slice)), reg.1)
    | some .stringLit => .ok (some (.StringLit (String.mk slice)), reg.1)
    | some .charLit => .ok (some (.CharLit (String.mk slice)), reg.1)
    | some .textBlock => .ok (some (.TextBlock (String.mk slice)), reg.1)
    | some .intNum =>
      match parseI64 slice with
      | some v => .ok (some (.Digit (.Int v)), reg.1)
      | none => badTok
    | some .intExp =>
      match parseF64q slice with
      | some v => .ok (some (.Digit (.Float v)), reg.1)
      | none => badTok
    | some .floatNum =>
      match parseF64q slice with
      | some v => .ok (some (.Digit (.Float v)), reg.1)
      | none => badTok
    | some .binaryNum =>
      match parseBinaryNum slice with
      | some v => .ok (some (.Digit (.Binary v)), reg.1)
      | none => badTok
    | some .hexNum =>
      match parseHexNum slice with
      | some v => .ok (some (.Digit (.Hex v)), reg.1)
      | none => badTok
    | some .blockComment => .ok (none, reg.1)
    | some .lineComment => .ok (none, reg.1)
    | some .whitespace => .ok (none, reg.1)
    | none => badTok

/-- lexRun is the `while let Some(t) = delegate.next()` loop of
`CypherLexer::new`; the fuel only guards termination and is ample at the
value `lex` passes (each step consumes at least one character). -/
def lexRun : Nat → List Char → Nat → Except ParseError (List Token)
  | _, [], _ => .ok []
  | 0, _, offset => .error (.BadToken "" (offset, offset))
  | fuel + 1, cs, offset =>
    match munch cs offset with
    | .error e => .error e
    | .ok (t?, n) =>
      match lexRun fuel (cs.drop n) (offset + n) with
      | .error e => .error e
      | .ok ts =>
        .ok (match t? with
          | some t => t :: ts
          | none => ts)

/-- lex mirrors `CypherLexer::new`: the whole input is tokenised eagerly,
the first unmatched prefix failing with `BadToken`. -/
def lex (s : String) : Except ParseError (List Token) :=
  lexRun (s.length + 1) s.toList 0

end Lexer

/-! Parser, mirroring `parser.rs` and the `token!` macro of `mod.rs`.
Every grammar rule becomes a function of the token vector, a fuel value and
the cursor; the fuel decreases at every nested grammar-rule call and only
guards the mutual recursion — all theorems below hold for every fuel, and
the concrete evaluations use an ample fuel. -/

namespace CypherParser

/-- tokenAt mirrors `CypherLexer::token` (reached through
`CypherParser::token`): the token at the cursor, or `ReachedEOF`. -/
def tokenAt (P : List Token) (pos : Nat) : Except ParseError (Token × Nat) :=
  match P.get? pos with
  | none => .error (.ReachedEOF pos)
  | some t => .ok (t, pos)

/-- tokenRule is the `token!` macro of `mod.rs`: on a matching arm, succeed
with the arm's value one past the token; on a non-matching token, `Fail` at
the token; on a lexer error (`ReachedEOF`), that error. -/
def tokenRule {α : Type} (P : List Token) (pos : Nat) (arms : Token → Option α) :
    ParseResult α :=
  match tokenAt P pos with
  | .ok (t, p) =>
    match arms t with
    | some v => .Success v (p + 1)
    | none => .Fail p
  | .error e => .Error e

/-- tokE is `token!` for a single value-free arm, producing `EmptyToken`. -/
def tokE (P : List Token) (pos : Nat) (t : Token) : ParseResult EmptyToken :=
  tokenRule P pos (fun x => if x = t then some {} else none)

/-- zero_or_more mirrors `CypherParser::zero_or_more`. -/
def zero_or_more {T : Type} (fuel : Nat) (pos : Nat)
    (thenF : Nat → ParseResult T) : ParseResult (List T) :=
  match ((thenF pos).then_multi_zip fuel (fun p => thenF p)).merge with
  | .Fail _ => .Success [] pos
  | .Error (.ReachedEOF _) => .Success [] pos
  | success => success

/-- one_or_more mirrors `CypherParser::one_or_more`. -/
def one_or_more {T : Type} (fuel : Nat) (pos : Nat)
    (thenF : Nat → ParseResult T) : ParseResult (List T) :=
  match zero_or_more fuel pos thenF with
  | .Success vals p => if vals.isEmpty then .Fail pos else .Success vals p
  | other => other

/-- validate_eof mirrors `CypherParser::validate_eof`. -/
def validate_eof {T : Type} (P : List Token) (res : ParseResult T) :
    ParseResult T :=
  match res with
  | .Success v pos =>
    if P.length ≠ pos then .Error (.UnreachedEOF pos) else .Success v pos
  | other => other

/-- assign_op is the token-to-operator `op` table inside
`CypherParser::assignment` (`parser.rs` lines 202-217), arm for arm. -/
def assign_op (P : List Token) (p : Nat) : ParseResult AssignOp :=
  tokenRule P p (fun t =>
    match t with
    | .Assign => some AssignOp.Assign
    | .MultAssign => some AssignOp.Sub
    | .AddAssign => some AssignOp.Add
    | .DivAssign => some AssignOp.Div
    | .AndAssign => some AssignOp.And
    | .OrAssign => some AssignOp.Or
    | .XOrAssign => some AssignOp.Xor
    | .ModAssign => some AssignOp.Mod
    | .LShift => some AssignOp.LShift
    | .RShift => some AssignOp.RShift
    | .URShiftAssign => some AssignOp.URShift
    | .SubAssign => some AssignOp.Mul
    | _ => none)

/-- Rules packages one function per grammar rule of `CypherParser`; the
fuel-indexed family `rulesAt` below ties the mutual recursion of the source
together level by level. -/
structure Rules where
  id : Nat → ParseResult Id
  number : Nat → ParseResult Number
  null : Nat → ParseResult AtomExpression
  bool : Nat → ParseResult AtomExpression
  char : Nat → ParseResult AtomExpression
  string : Nat → ParseResult String
  number_expr : Nat → ParseResult AtomExpression
  map_init : Nat → ParseResult AtomExpression
  list_init : Nat → ParseResult Enumeration
  elvis : Nat → ParseResult Elvis
  expression : Nat → ParseResult Expression
  enumeration : Nat → ParseResult Enumeration
  statement : Nat → ParseResult Statement
  file_unit : Nat → ParseResult Unit
  script : Nat → ParseResult Script
  assignment : Nat → ParseResult Assignment
  assignment_null : Nat → ParseResult AssignmentNull
  if_statement : Nat → ParseResult If
  block : Nat → ParseResult Block
  params : Nat → ParseResult Params
  call : Nat → ParseResult Call
  collection_elem : Nat → ParseResult AtomExpression
  import_variable : Nat → ParseResult ImportVariable
  import_module : Nat → ParseResult ImportModule
  range : Nat → ParseResult Range
  atom : Nat → ParseResult AtomExpression
  function : Nat → ParseResult Function
  logic_atom : Nat → ParseResult Logic
  compound_expr : Nat → ParseResult CompoundExpression
  logic : Nat → ParseResult Logic
  arith : Nat → ParseResult Arithmetic
  class_statement : Nat → ParseResult ClassStatement
  class_body : Nat → ParseResult ClassUnit
  attribute_ : Nat → ParseResult Attribute
  one_arg : Nat → ParseResult Id
  while_statement : Nat → ParseResult While
  for_statement : Nat → ParseResult For
  class_def : Nat → ParseResult ClassDefinition

/-- bottom is the fuel-zero level: every rule fails at its entry cursor. -/
def bottom : Rules where
  id := fun pos => .Fail pos
  number := fun pos => .Fail pos
  null := fun pos => .Fail pos
  bool := fun pos => .Fail pos
  char := fun pos => .Fail pos
  string := fun pos => .Fail pos
  number_expr := fun pos => .Fail pos
  map_init := fun pos => .Fail pos
  list_init := fun pos => .Fail pos
  elvis := fun pos => .Fail pos
  expression := fun pos => .Fail pos
  enumeration := fun pos => .Fail pos
  statement := fun pos => .Fail pos
  file_unit := fun pos => .Fail pos
  script := fun pos => .Fail pos
  assignment := fun pos => .Fail pos
  assignment_null := fun pos => .Fail pos
  if_statement := fun pos => .Fail pos
  block := fun pos => .Fail pos
  params := fun pos => .Fail pos
  call := fun pos => .Fail pos
  collection_elem := fun pos => .Fail pos
  import_variable := fun pos => .Fail pos
  import_module := fun pos => .Fail pos
  range := fun pos => .Fail pos
  atom := fun pos => .Fail pos
  function := fun pos => .Fail pos
  logic_atom := fun pos => .Fail pos
  compound_expr := fun pos => .Fail pos
  logic := fun pos => .Fail pos
  arith := fun pos => .Fail pos
  class_statement := fun pos => .Fail pos
  class_body := fun pos => .Fail pos
  attribute_ := fun pos => .Fail pos
  one_arg := fun pos => .Fail pos
  while_statement := fun pos => .Fail pos
  for_statement := fun pos => .Fail pos
  class_def := fun pos => .Fail pos

/-- step builds the rules at fuel `fuel + 1` from the rules `prev` at fuel
`fuel`: each field is the body of the corresponding `CypherParser` method,
with every nested grammar-rule call going through `prev`. -/
def step (P : List Token) (fuel : Nat) (prev : Rules) : Rules where
  id := fun pos =>
    tokenRule P pos (fun t =>
      match t with
      | .Id v => some { value := v }
      | _ => none)
  number := fun pos =>
    tokenRule P pos (fun t =>
      match t with
      | .Digit n => some n
      | _ => none)
  null := fun pos =>
    tokenRule P pos (fun t =>
      match t with
      | .Null => some AtomExpression.Null
      | _ => none)
  bool := fun pos =>
    tokenRule P pos (fun t =>
      match t with
      | .True => some (AtomExpression.Bool true)
      | .False => some (AtomExpression.Bool false)
      | _ => none)
  char := fun pos =>
    tokenRule P pos (fun t =>
      match t with
      | .CharLit v => some (AtomExpression.CharLit v)
      | _ => none)
  string := fun pos =>
    tokenRule P pos (fun t =>
      match t with
      | .StringLit v => some v
      | .TextBlock v => some v
      | _ => none)
  number_expr := fun pos =>
    (prev.number pos).map AtomExpression.Number
  map_init := fun pos =>
    let one_pair := fun p =>
      (((prev.expression p).then_zip (fun p => tokE P p .Colon)).take_left).then_zip
        (fun p => prev.expression p)
    let all_pairs := fun p =>
      (((one_pair p).then_multi_zip fuel
        (fun p => (tokE P p .Comma).thenP one_pair)).merge).or_val []
    ((((tokE P pos .LBrace).thenP all_pairs).then_zip
      (fun p => tokE P p .RBrace)).take_left).map AtomExpression.MapInit
  list_init := fun pos =>
    (((tokE P pos .LBrack).then_or_default (fun p => prev.enumeration p)).then_zip
      (fun p => tokE P p .RBrack)).take_left
  elvis := fun pos =>
    (((((tokE P pos .Question).thenP (fun p => prev.expression p)).then_zip
      (fun p => tokE P p .Colon)).take_left).then_zip
      (fun p => prev.expression p)).map (fun lr => Elvis.mk lr.1 lr.2)
  expression := fun pos =>
    let notE := fun p =>
      ((tokE P p .Bang).thenP (fun p => prev.expression p)).map Expression.Not
    let wrapped := fun p =>
      (((tokE P p .LParen).thenP (fun p => prev.expression p)).then_zip
        (fun p => tokE P p .RParen)).take_left
    let atomE := fun p => (prev.atom p).map Expression.Atom
    let compound := fun p =>
      let atom_or_not : ParseResult Expression :=
        ((((atomE p).or_from p).or notE).or wrapped).toResult
      (atom_or_not.then_zip (fun p => prev.compound_expr p)).map
        (fun e => Expression.Compound e.1 e.2)
    (((((compound pos).or_from pos).or notE).or wrapped).or atomE).toResult
  enumeration := fun pos =>
    let tail := fun p => (tokE P p .Comma).thenP (fun p => prev.expression p)
    (((prev.expression pos).then_multi_zip fuel tail).merge).map Enumeration.mk
  statement := fun pos =>
    let ret := fun p =>
      ((tokE P p .Return).thenP (fun p => prev.expression p)).map Statement.Return
    ((((((((((prev.assignment pos).map Statement.Assignment).or_from pos).or
      (fun p => (prev.assignment_null p).map Statement.AssignmentNull)).or
      (fun p => (prev.block p).map Statement.Block)).or
      (fun p => (prev.expression p).map Statement.Expression)).or
      (fun p => (prev.if_statement p).map Statement.If)).or
      (fun p => (prev.while_statement p).map Statement.While)).or
      (fun p => (prev.for_statement p).map Statement.For)).or ret).toResult
  file_unit := fun pos =>
    (((((((prev.class_def pos).map Unit.Class).or_from pos).or
      (fun p => (prev.function p).map Unit.Fn)).or
      (fun p => (prev.import_module p).map Unit.Import)).or
      (fun p => (prev.statement p).map Unit.Statement)).or
      (fun p => (prev.block p).map Unit.Block)).toResult
  script := fun pos =>
    (one_or_more fuel pos (fun p => prev.file_unit p)).map
      (fun units => { units := units })
  assignment := fun pos =>
    let tail := fun p =>
      ((((prev.expression p).map Rhs.Expression).or_from p).or
        (fun p =>
          (one_or_more fuel p (fun p => prev.assignment p)).map
            (fun v =>
              match v with
              | [a] => Rhs.Assignment a
              | v => Rhs.Assignments v))).toResult
    (((((tokenRule P pos (fun t =>
        match t with
        | .Var => some true
        | _ => none)).or_val false).then_zip
      (fun p => prev.expression p)).then_zip
      (fun p => assign_op P p)).then_zip tail).map
      (fun x => Assignment.mk x.1.1.1 x.1.2 x.1.1.2 x.2)
  assignment_null := fun pos =>
    ((tokE P pos .Var).thenP (fun p => prev.id p)).map AssignmentNull.mk
  if_statement := fun pos =>
    let main := fun p =>
      ((((((tokE P p .If).thenP (fun p => tokE P p .LParen)).thenP
        (fun p => prev.expression p)).then_zip
        (fun p => tokE P p .RParen)).take_left).then_zip
        (fun p => prev.statement p)).map (fun ca => IfBranch.mk ca.1 ca.2)
    let else_ifs := fun p =>
      zero_or_more fuel p (fun p => (tokE P p .Else).thenP main)
    let else_opt := fun p =>
      ((tokE P p .Else).thenP (fun p => prev.statement p)).or_none
    (((main pos).then_zip else_ifs).then_or_none_zip else_opt).map
      (fun x => If.mk x.1.1 x.1.2 x.2)
  block := fun pos =>
    let paramsF := fun p =>
      (((tokE P p .BitOr).thenP (fun p => prev.params p)).then_zip
        (fun p => tokE P p .BitOr)).take_left
    (((((tokE P pos .LBrace).then_or_default paramsF).then_multi_zip fuel
      (fun p => prev.statement p)).map (fun x => Block.mk x.1 x.2)).then_zip
      (fun p => tokE P p .RBrace)).take_left
  params := fun pos =>
    (((prev.id pos).then_multi_zip fuel
      (fun p => (tokE P p .Comma).thenP (fun p => prev.id p))).merge).map
      (fun ids => { ids := ids })
  call := fun pos =>
    let enumerationF := fun p =>
      ((((tokE P p .LParen).then_or_default (fun p => prev.enumeration p)).then_zip
        (fun p => tokE P p .RParen)).take_left).map BlockOrEnum.Enum
    let block_or_enum := fun p =>
      ((prev.block p).map BlockOrEnum.Block).or_last enumerationF
    let tail := fun p =>
      ((tokE P p .Dot).thenP (fun p => prev.call p)).or_none
    (((prev.id pos).then_or_val_zip block_or_enum BlockOrEnum.None).then_or_none_zip
      tail).map (fun x => Call.mk x.1.1 x.2 x.1.2)
  collection_elem := fun pos =>
    ((((prev.string pos).map Call.just_id).or_last
      (fun p => prev.call p)).then_zip
      (fun p => prev.list_init p)).map
      (fun x => AtomExpression.CollectionElem x.1 x.2)
  import_variable := fun pos =>
    let aliasF := fun p =>
      (tokE P p .As).then_or_none (fun p => (prev.id p).or_none)
    ((prev.id pos).then_or_none_zip aliasF).map
      (fun x => { name := x.1, alias_ := x.2 })
  import_module := fun pos =>
    let import_vars := fun p =>
      (((tokE P p .For).thenP (fun p => prev.import_variable p)).then_multi_zip
        fuel (fun p => (tokE P p .Comma).thenP
          (fun p => prev.import_variable p))).merge
    (((tokE P pos .Import).thenP (fun p => prev.string p)).then_or_val_zip
      import_vars []).map (fun x => { name := x.1, variables_ := x.2 })
  range := fun pos =>
    let range_expr := fun p =>
      ((prev.call p).map RangeExpression.Call).or_last
        (fun p => (prev.number p).map RangeExpression.Num)
    let ellipsis := fun p =>
      tokenRule P p (fun t =>
        match t with
        | .EllipsisIn => some false
        | .EllipsisOut => some true
        | _ => none)
    (((range_expr pos).then_zip ellipsis).then_zip range_expr).map
      (fun x => Range.mk x.1.1 x.2 x.1.2)
  atom := fun pos =>
    let with_sub := fun p =>
      ((tokE P p .Sub).thenP (fun p => prev.atom p)).map AtomExpression.Sub
    (((((((((((((((prev.bool pos).or_from pos).or
      (fun p => (prev.import_module p).map AtomExpression.ImportModule)).or
      (fun p => (prev.range p).map AtomExpression.Range)).or
      (fun p => prev.char p)).or
      (fun p => (prev.string p).map AtomExpression.StringLit)).or
      (fun p => (prev.number p).map AtomExpression.Number)).or
      (fun p => prev.null p)).or
      (fun p => (prev.list_init p).map AtomExpression.ListInit)).or
      (fun p => prev.map_init p)).or
      (fun p => prev.collection_elem p)).or
      (fun p => (prev.call p).map AtomExpression.Call)).or
      (fun p => tokenRule P p (fun t =>
        match t with
        | .Break => some AtomExpression.Break
        | _ => none))).or
      (fun p => tokenRule P p (fun t =>
        match t with
        | .Continue => some AtomExpression.Continue
        | _ => none))).or with_sub).toResult
  function := fun pos =>
    let paramsF := fun p =>
      (((tokE P p .LParen).then_or_default (fun p => prev.params p)).then_zip
        (fun p => tokE P p .RParen)).take_left
    (((prev.id pos).then_zip paramsF).then_or_none_zip
      (fun p => (prev.block p).or_none)).map
      (fun x => { name := x.1.1, params := x.1.2, block := x.2 })
  logic_atom := fun pos =>
    ((tokenRule P pos (fun t =>
      match t with
      | .Or => some LogicOp.Or
      | .Gt => some LogicOp.Gt
      | .Ge => some LogicOp.Ge
      | .Equal => some LogicOp.Eq
      | .NotEqual => some LogicOp.NotEq
      | .Lt => some LogicOp.Lt
      | .Le => some LogicOp.Le
      | .And => some LogicOp.And
      | _ => none)).then_zip (fun p => prev.expression p)).map
      (fun x => Logic.Atom x.1 x.2)
  compound_expr := fun pos =>
    let tailF := fun p =>
      ((tokE P p .Dot).thenP (fun p => prev.call p)).map CompoundExpression.Tail
    let isF := fun p =>
      ((tokE P p .Is).thenP (fun p => prev.expression p)).map CompoundExpression.Is
    let arithF := fun p => (prev.arith p).map CompoundExpression.Arith
    let elvisF := fun p => (prev.elvis p).map CompoundExpression.Elvis
    (((((((prev.logic pos).map CompoundExpression.Logic).or_from pos).or
      arithF).or elvisF).or tailF).or isF).toResult
  logic := fun pos =>
    let andF := fun p =>
      ((prev.logic_atom p).then_multi_zip fuel (fun p =>
        ((tokE P p .And).thenP (fun p => prev.expression p)).then_zip
          (fun p => prev.logic_atom p))).map
        (fun x => if x.2.isEmpty then x.1 else Logic.And x.1 x.2)
    ((andF pos).then_multi_zip fuel (fun p =>
      ((tokE P p .Or).thenP (fun p => prev.expression p)).then_zip andF)).map
      (fun x => if x.2.isEmpty then x.1 else Logic.Or x.1 x.2)
  arith := fun pos =>
    let mulF := fun p =>
      ((tokenRule P p (fun t =>
        match t with
        | .Mult => some MulSign.Mul
        | .Div => some MulSign.Div
        | .Mod => some MulSign.Mod
        | _ => none)).then_zip (fun p => prev.expression p)).map
        (fun x => Arithmetic.Mul x.1 x.2)
    let addF := fun p =>
      ((tokenRule P p (fun t =>
        match t with
        | .Sub => some false
        | .Add => some true
        | _ => none)).then_zip (fun p =>
          (mulF p).or_last
            (fun p => (prev.expression p).map Arithmetic.Expression))).map
        (fun x => Arithmetic.Add x.1 x.2)
    let rangeF := fun p =>
      ((tokenRule P p (fun t =>
        match t with
        | .EllipsisIn => some false
        | .EllipsisOut => some true
        | _ => none)).then_zip (fun p =>
          (addF p).or_last
            (fun p => (prev.expression p).map Arithmetic.Expression))).map
        (fun x => Arithmetic.Range x.1 x.2)
    let shiftF := fun p =>
      ((tokenRule P p (fun t =>
        match t with
        | .LShift => some false
        | .RShift => some true
        | _ => none)).then_zip (fun p =>
          (rangeF p).or_last
            (fun p => (prev.expression p).map Arithmetic.Expression))).map
        (fun x => Arithmetic.Shift x.1 x.2)
    let bitF := fun p =>
      ((tokenRule P p (fun t =>
        match t with
        | .BitOr => some BitSign.Or
        | .BitAnd => some BitSign.And
        | .Caret => some BitSign.Xor
        | _ => none)).then_zip (fun p =>
          (shiftF p).or_last
            (fun p => (prev.expression p).map Arithmetic.Expression))).map
        (fun x => Arithmetic.Bit x.1 x.2)
    ((((mulF pos).or_last addF).or_last rangeF).or_last shiftF).or_last bitF
  class_statement := fun pos =>
    let op_getter := fun p =>
      (((tokenRule P p (fun t =>
        match t with
        | .Sub => some GetterLabel.Sub
        | .Tilde => some GetterLabel.Tilde
        | .Bang => some GetterLabel.Bang
        | _ => none)).or_last
        (fun p => (prev.id p).map GetterLabel.Id)).then_or_none_zip
        (fun p => (prev.block p).or_none)).map
        (fun x => ClassStatement.OpGetter x.1 x.2)
    let setter := fun p =>
      ((prev.id p).then_zip (fun p =>
        ((tokE P p .Assign).thenP (fun p => prev.one_arg p)).then_zip
          (fun p => prev.block p))).map
        (fun x => ClassStatement.Setter x.1 x.2.1 x.2.2)
    let subscript_get := fun p =>
      (((((tokE P p .LParen).thenP (fun p => prev.enumeration p)).then_zip
        (fun p => tokE P p .RParen)).take_left).then_zip
        (fun p => prev.block p)).map
        (fun x => ClassStatement.SubscriptGet x.1 x.2)
    let subscript_set := fun p =>
      ((((((tokE P p .LParen).thenP (fun p => prev.enumeration p)).then_zip
        (fun p => tokE P p .RParen)).take_left).then_zip
        (fun p => (tokE P p .Assign).thenP (fun p => prev.one_arg p))).then_zip
        (fun p => prev.block p)).map
        (fun x => ClassStatement.SubscriptSet x.1.1 x.1.2 x.2)
    let op_setter := fun p =>
      (((tokenRule P p (fun t =>
        match t with
        | .Sub => some SetterLabel.Sub
        | .Mult => some SetterLabel.Mul
        | .Div => some SetterLabel.Div
        | .Mod => some SetterLabel.Mod
        | .Add => some SetterLabel.Add
        | .EllipsisIn => some SetterLabel.EllipsisIn
        | .EllipsisOut => some SetterLabel.EllipsisOut
        | .LShift => some SetterLabel.LShift
        | .BitAnd => some SetterLabel.BitAnd
        | .Caret => some SetterLabel.BitXor
        | .BitOr => some SetterLabel.BitOr
        | .Gt => some SetterLabel.Gt
        | .Lt => some SetterLabel.Lt
        | .Equal => some SetterLabel.Eq
        | .Le => some SetterLabel.Le
        | .Ge => some SetterLabel.Ge
        | .NotEqual => some SetterLabel.NotEq
        | .Is => some SetterLabel.Is
        | _ => none)).then_zip
        (fun p => prev.one_arg p)).then_zip
        (fun p => prev.block p)).map
        (fun x => ClassStatement.OpSetter x.1.1 x.1.2 x.2)
    let constructor := fun p =>
      ((((tokE P p .Construct).thenP (fun p => prev.id p)).then_zip
        (fun p => prev.params p)).then_zip
        (fun p => prev.block p)).map
        (fun x => ClassStatement.Constructor x.1.1 x.1.2 x.2)
    ((((((((prev.function pos).map ClassStatement.Fn).or_from pos).or
      op_getter).or op_setter).or setter).or subscript_get).or
      subscript_set).or constructor |>.toResult
  class_body := fun pos =>
    let foreignF := fun p =>
      tokenRule P p (fun t =>
        match t with
        | .Foreign => some ClassBodyType.Foreign
        | _ => none)
    let static_t := fun p =>
      tokenRule P p (fun t =>
        match t with
        | .Static => some ClassBodyType.Static
        | _ => none)
    let tpe := fun p =>
      (((((((foreignF p).thenP static_t).map
        (fun _ => ClassBodyType.ForeignStatic)).or_from p).or
        (fun p => ((static_t p).thenP foreignF).map
          (fun _ => ClassBodyType.ForeignStatic))).or static_t).or
        foreignF).toResult
    (((zero_or_more fuel pos (fun p => prev.attribute_ p)).then_or_default_zip
      tpe).then_zip (fun p => prev.class_statement p)).map
      (fun x => { attributes := x.1.1, tpe := x.1.2, statement := x.2 })
  attribute_ := fun pos =>
    let prefixF := fun p =>
      (tokE P p .Hash).then_or_val
        (fun p => tokenRule P p (fun t =>
          match t with
          | .Bang => some true
          | _ => none)) false
    let attr_val := fun p =>
      ((prev.id p).then_or_none_zip (fun p =>
        ((tokE P p .Assign).thenP (fun p => prev.atom p)).or_none)).map
        (fun x => { id := x.1, expr := x.2 : AttributeValue })
    let simple := fun p =>
      ((prefixF p).then_zip attr_val).map (fun x => Attribute.Simple x.1 x.2)
    let group := fun p =>
      (((((prefixF p).then_zip (fun p => prev.id p)).then_zip (fun p =>
        (((tokE P p .LParen).thenP attr_val).then_multi_zip fuel
          (fun p => (tokE P p .Comma).thenP attr_val)).merge)).then_zip
        (fun p => tokE P p .RParen)).take_left).map
        (fun x => Attribute.Group x.1.1 x.1.2 x.2)
    (((group pos).or_from pos).or simple).toResult
  one_arg := fun pos =>
    (((tokE P pos .LParen).thenP (fun p => prev.id p)).then_zip
      (fun p => tokE P p .RParen)).take_left
  while_statement := fun pos =>
    let cond := fun p =>
      ((((prev.expression p).map WhileCond.Expression).or_from p).or
        (fun p => (prev.assignment p).map WhileCond.Assignment)).toResult
    ((((((tokE P pos .While).thenP (fun p => tokE P p .LParen)).thenP
      cond).then_zip (fun p => tokE P p .RParen)).take_left).then_zip
      (fun p => prev.statement p)).map (fun x => While.mk x.1 x.2)
  for_statement := fun pos =>
    ((((((((tokE P pos .For).thenP (fun p => tokE P p .LParen)).thenP
      (fun p => prev.id p)).then_zip
      (fun p => tokE P p .In)).take_left).then_zip
      (fun p => prev.expression p)).then_zip
      (fun p => tokE P p .RParen)).take_left.then_zip
      (fun p => prev.statement p)).map
      (fun x => For.mk x.1.1 x.1.2 x.2)
  class_def := fun pos =>
    let inherit := fun p => (tokE P p .Is).thenP (fun p => prev.id p)
    (((((((zero_or_more fuel pos (fun p => prev.attribute_ p)).then_zip
      (fun p => (tokenRule P p (fun t =>
        match t with
        | .Foreign => some true
        | _ => none)).or_val false)).then_zip
      (fun p => tokE P p .Class)).take_left).then_zip
      (fun p => prev.id p)).then_or_none_zip
      (fun p => (inherit p).or_none)).then_zip
      (fun p => tokE P p .LBrace)).take_left.then_zip
      (fun p => zero_or_more fuel p (fun p => prev.class_body p)) |>.map
      (fun x =>
        { attributes := x.1.1.1.1, foreign := x.1.1.1.2, name := x.1.1.2,
          inherit := x.1.2, elems := x.2 })

/-- rulesAt iterates `step` from `bottom`. -/
def rulesAt (P : List Token) : Nat → Rules
  | 0 => bottom
  | fuel + 1 => step P fuel (rulesAt P fuel)

/-- id mirrors `CypherParser::id`. -/
def id (P : List Token) (fuel : Nat) (pos : Nat) : ParseResult Id :=
  (rulesAt P fuel).id pos

/-- number mirrors `CypherParser::number`. -/
def number (P : List Token) (fuel : Nat) (pos : Nat) : ParseResult Number :=
  (rulesAt P fuel).number pos

/-- null mirrors `CypherParser::null`. -/
def null (P : List Token) (fuel : Nat) (pos : Nat) : ParseResult AtomExpression :=
  (rulesAt P fuel).null pos

/-- bool mirrors `CypherParser::bool`. -/
def bool (P : List Token) (fuel : Nat) (pos : Nat) : ParseResult AtomExpression :=
  (rulesAt P fuel).bool pos

/-- char mirrors `CypherParser::char`. -/
def char (P : List Token) (fuel : Nat) (pos : Nat) : ParseResult AtomExpression :=
  (rulesAt P fuel).char pos

/-- string mirrors `CypherParser::string`. -/
def string (P : List Token) (fuel : Nat) (pos : Nat) : ParseResult String :=
  (rulesAt P fuel).string pos

/-- number_expr mirrors `CypherParser::number_expr`. -/
def number_expr (P : List Token) (fuel : Nat) (pos : Nat) : ParseResult AtomExpression :=
  (rulesAt P fuel).number_expr pos

/-- map_init mirrors `CypherParser::map_init`. -/
def map_init (P : List Token) (fuel : Nat) (pos : Nat) : ParseResult AtomExpression :=
  (rulesAt P fuel).map_init pos

/-- list_init mirrors `CypherParser::list_init`. -/
def list_init (P : List Token) (fuel : Nat) (pos : Nat) : ParseResult Enumeration :=
  (rulesAt P fuel).list_init pos

/-- elvis mirrors `CypherParser::elvis`. -/
def elvis (P : List Token) (fuel : Nat) (pos : Nat) : ParseResult Elvis :=
  (rulesAt P fuel).elvis pos

/-- expression mirrors `CypherParser::expression`. -/
def expression (P : List Token) (fuel : Nat) (pos : Nat) : ParseResult Expression :=
  (rulesAt P fuel).expression pos

/-- enumeration mirrors `CypherParser::enumeration`. -/
def enumeration (P : List Token) (fuel : Nat) (pos : Nat) : ParseResult Enumeration :=
  (rulesAt P fuel).enumeration pos

/-- statement mirrors `CypherParser::statement`. -/
def statement (P : List Token) (fuel : Nat) (pos : Nat) : ParseResult Statement :=
  (rulesAt P fuel).statement pos

/-- file_unit mirrors `CypherParser::file_unit`. -/
def file_unit (P : List Token) (fuel : Nat) (pos : Nat) : ParseResult Unit :=
  (rulesAt P fuel).file_unit pos

/-- script mirrors `CypherParser::script`. -/
def script (P : List Token) (fuel : Nat) (pos : Nat) : ParseResult Script :=
  (rulesAt P fuel).script pos

/-- assignment mirrors `CypherParser::assignment` (the `op` closure is the
top-level `assign_op` above). -/
def assignment (P : List Token) (fuel : Nat) (pos : Nat) : ParseResult Assignment :=
  (rulesAt P fuel).assignment pos

/-- assignment_null mirrors `CypherParser::assignment_null`. -/
def assignment_null (P : List Token) (fuel : Nat) (pos : Nat) : ParseResult AssignmentNull :=
  (rulesAt P fuel).assignment_null pos

/-- if_statement mirrors `CypherParser::if_statement`. -/
def if_statement (P : List Token) (fuel : Nat) (pos : Nat) : ParseResult If :=
  (rulesAt P fuel).if_statement pos

/-- block mirrors `CypherParser::block`. -/
def block (P : List Token) (fuel : Nat) (pos : Nat) : ParseResult Block :=
  (rulesAt P fuel).block pos

/-- params mirrors `CypherParser::params`. -/
def params (P : List Token) (fuel : Nat) (pos : Nat) : ParseResult Params :=
  (rulesAt P fuel).params pos

/-- call mirrors `CypherParser::call`. -/
def call (P : List Token) (fuel : Nat) (pos : Nat) : ParseResult Call :=
  (rulesAt P fuel).call pos

/-- collection_elem mirrors `CypherParser::collection_elem`. -/
def collection_elem (P : List Token) (fuel : Nat) (pos : Nat) : ParseResult AtomExpression :=
  (rulesAt P fuel).collection_elem pos

/-- import_variable mirrors `CypherParser::import_variable`. -/
def import_variable (P : List Token) (fuel : Nat) (pos : Nat) : ParseResult ImportVariable :=
  (rulesAt P fuel).import_variable pos

/-- import_module mirrors `CypherParser::import_module`. -/
def import_module (P : List Token) (fuel : Nat) (pos : Nat) : ParseResult ImportModule :=
  (rulesAt P fuel).import_module pos

/-- range mirrors `CypherParser::range`. -/
def range (P : List Token) (fuel : Nat) (pos : Nat) : ParseResult Range :=
  (rulesAt P fuel).range pos

/-- atom mirrors `CypherParser::atom`. -/
def atom (P : List Token) (fuel : Nat) (pos : Nat) : ParseResult AtomExpression :=
  (rulesAt P fuel).atom pos

/-- function mirrors `CypherParser::function`. -/
def function (P : List Token) (fuel : Nat) (pos : Nat) : ParseResult Function :=
  (rulesAt P fuel).function pos

/-- logic_atom mirrors `CypherParser::logic_atom`. -/
def logic_atom (P : List Token) (fuel : Nat) (pos : Nat) : ParseResult Logic :=
  (rulesAt P fuel).logic_atom pos

/-- compound_expr mirrors `CypherParser::compound_expr`. -/
def compound_expr (P : List Token) (fuel : Nat) (pos : Nat) : ParseResult CompoundExpression :=
  (rulesAt P fuel).compound_expr pos

/-- logic mirrors `CypherParser::logic`. -/
def logic (P : List Token) (fuel : Nat) (pos : Nat) : ParseResult Logic :=
  (rulesAt P fuel).logic pos

/-- arith mirrors `CypherParser::arith`. -/
def arith (P : List Token) (fuel : Nat) (pos : Nat) : ParseResult Arithmetic :=
  (rulesAt P fuel).arith pos

/-- class_statement mirrors `CypherParser::class_statement`. -/
def class_statement (P : List Token) (fuel : Nat) (pos : Nat) : ParseResult ClassStatement :=
  (rulesAt P fuel).class_statement pos

/-- class_body mirrors `CypherParser::class_body`. -/
def class_body (P : List Token) (fuel : Nat) (pos : Nat) : ParseResult ClassUnit :=
  (rulesAt P fuel).class_body pos

/-- attribute_ mirrors `CypherParser::attribute` (`attribute` is a Lean keyword). -/
def attribute_ (P : List Token) (fuel : Nat) (pos : Nat) : ParseResult Attribute :=
  (rulesAt P fuel).attribute_ pos

/-- one_arg mirrors `CypherParser::one_arg`. -/
def one_arg (P : List Token) (fuel : Nat) (pos : Nat) : ParseResult Id :=
  (rulesAt P fuel).one_arg pos

/-- while_statement mirrors `CypherParser::while_statement`. -/
def while_statement (P : List Token) (fuel : Nat) (pos : Nat) : ParseResult While :=
  (rulesAt P fuel).while_statement pos

/-- for_statement mirrors `CypherParser::for_statement`. -/
def for_statement (P : List Token) (fuel : Nat) (pos : Nat) : ParseResult For :=
  (rulesAt P fuel).for_statement pos

/-- class_def mirrors `CypherParser::class_def`. -/
def class_def (P : List Token) (fuel : Nat) (pos : Nat) : ParseResult ClassDefinition :=
  (rulesAt P fuel).class_def pos
end CypherParser

/-! Verification predicates and verified properties. -/

open CypherParser Lexer

/-- isHard singles out the hard error kinds: every `ParseError` other than
the soft `ReachedEOF`. -/
def ParseError.isHard (e : ParseError) : Prop :=
  ∀ p, e ≠ ParseError.ReachedEOF p

/-- Wgood is the cursor-sanity invariant of a parse result produced by a
rule entered at `pos` over `len` tokens: a `Success` or `Fail` position, or
a `ReachedEOF` payload, lies in `[pos, len]`, and no hard error occurs. -/
def Wgood {T : Type} (pos len : Nat) : ParseResult T → Prop
  | .Success _ p => pos ≤ p ∧ p ≤ len
  | .Fail p => pos ≤ p ∧ p ≤ len
  | .Error (.ReachedEOF p) => pos ≤ p ∧ p ≤ len
  | .Error _ => False

/-- Good strengthens Wgood: a `Success` strictly advances the cursor. -/
def Good {T : Type} (pos len : Nat) : ParseResult T → Prop
  | .Success _ p => pos < p ∧ p ≤ len
  | .Fail p => pos ≤ p ∧ p ≤ len
  | .Error (.ReachedEOF p) => pos ≤ p ∧ p ≤ len
  | .Error _ => False

/-- AltGood carries the `Good` invariant through an in-flight anchored
alternation: the anchor is `a` and the current result is `Good` at `a`. -/
def AltGood {T : Type} (a len : Nat) (alt : Alt T) : Prop :=
  alt.init_pos = a ∧ Good a len alt.current

/-- ZeroOrMoreOk packages the claimed behaviour of `zero_or_more` on a
rule `f` anchored at `pos`: the result is always a `Success` whose cursor
is at or beyond the anchor (never a `Fail`), and a soft failure or
end-of-input of `f`'s first attempt yields the empty vector exactly at the
anchor. -/
def ZeroOrMoreOk {T : Type} (fuel pos : Nat) (f : Nat → ParseResult T) : Prop :=
  (∃ vals q, zero_or_more fuel pos f = .Success vals q ∧ pos ≤ q) ∧
  ((∃ pf, f pos = .Fail pf ∨ f pos = .Error (.ReachedEOF pf)) →
    zero_or_more fuel pos f = .Success [] pos)

/-- GoodRules states the `Good` invariant for every grammar rule of a
`Rules` level, at every in-range entry cursor. -/
structure GoodRules (len : Nat) (r : Rules) : Prop where
  id : ∀ pos, pos ≤ len → Good pos len (r.id pos)
  number : ∀ pos, pos ≤ len → Good pos len (r.number pos)
  null : ∀ pos, pos ≤ len → Good pos len (r.null pos)
  bool : ∀ pos, pos ≤ len → Good pos len (r.bool pos)
  char : ∀ pos, pos ≤ len → Good pos len (r.char pos)
  string : ∀ pos, pos ≤ len → Good pos len (r.string pos)
  number_expr : ∀ pos, pos ≤ len → Good pos len (r.number_expr pos)
  map_init : ∀ pos, pos ≤ len → Good pos len (r.map_init pos)
  list_init : ∀ pos, pos ≤ len → Good pos len (r.list_init pos)
  elvis : ∀ pos, pos ≤ len → Good pos len (r.elvis pos)
  expression : ∀ pos, pos ≤ len → Good pos len (r.expression pos)
  enumeration : ∀ pos, pos ≤ len → Good pos len (r.enumeration pos)
  statement : ∀ pos, pos ≤ len → Good pos len (r.statement pos)
  file_unit : ∀ pos, pos ≤ len → Good pos len (r.file_unit pos)
  script : ∀ pos, pos ≤ len → Good pos len (r.script pos)
  assignment : ∀ pos, pos ≤ len → Good pos len (r.assignment pos)
  assignment_null : ∀ pos, pos ≤ len → Good pos len (r.assignment_null pos)
  if_statement : ∀ pos, pos ≤ len → Good pos len (r.if_statement pos)
  block : ∀ pos, pos ≤ len → Good pos len (r.block pos)
  params : ∀ pos, pos ≤ len → Good pos len (r.params pos)
  call : ∀ pos, pos ≤ len → Good pos len (r.call pos)
  collection_elem : ∀ pos, pos ≤ len → Good pos len (r.collection_elem pos)
  import_variable : ∀ pos, pos ≤ len → Good pos len (r.import_variable pos)
  import_module : ∀ pos, pos ≤ len → Good pos len (r.import_module pos)
  range : ∀ pos, pos ≤ len → Good pos len (r.range pos)
  atom : ∀ pos, pos ≤ len → Good pos len (r.atom pos)
  function : ∀ pos, pos ≤ len → Good pos len (r.function pos)
  logic_atom : ∀ pos, pos ≤ len → Good pos len (r.logic_atom pos)
  compound_expr : ∀ pos, pos ≤ len → Good pos len (r.compound_expr pos)
  logic : ∀ pos, pos ≤ len → Good pos len (r.logic pos)
  arith : ∀ pos, pos ≤ len → Good pos len (r.arith pos)
  class_statement : ∀ pos, pos ≤ len → Good pos len (r.class_statement pos)
  class_body : ∀ pos, pos ≤ len → Good pos len (r.class_body pos)
  attribute_ : ∀ pos, pos ≤ len → Good pos len (r.attribute_ pos)
  one_arg : ∀ pos, pos ≤ len → Good pos len (r.one_arg pos)
  while_statement : ∀ pos, pos ≤ len → Good pos len (r.while_statement pos)
  for_statement : ∀ pos, pos ≤ len → Good pos len (r.for_statement pos)
  class_def : ∀ pos, pos ≤ len → Good pos len (r.class_def pos)


/-- C1: in the assignment rule, the token-to-semantic-op table maps exactly
`=` to Assign, `+=` to Add, `-=` to Mul, `*=` to Sub, `/=` to Div, `&=` to
And, `|=` to Or, `^=` to Xor, `%=` to Mod, the bare `<<` to LShift, the bare
`>>` to RShift, and `>>>=` to URShift — while `<<=` and `>>=` are not
assignment operators at all (the rule fails on them). -/
theorem c1_assign_op_mapping :
    ∀ (P : List Token) (pos : Nat),
      (P.get? pos = some Token.Assign →
        assign_op P pos = .Success AssignOp.Assign (pos + 1)) ∧
      (P.get? pos = some Token.AddAssign →
        assign_op P pos = .Success AssignOp.Add (pos + 1)) ∧
      (P.get? pos = some Token.SubAssign →
        assign_op P pos = .Success AssignOp.Mul (pos + 1)) ∧
      (P.get? pos = some Token.MultAssign →
        assign_op P pos = .Success AssignOp.Sub (pos + 1)) ∧
      (P.get? pos = some Token.DivAssign →
        assign_op P pos = .Success AssignOp.Div (pos + 1)) ∧
      (P.get? pos = some Token.AndAssign →
        assign_op P pos = .Success AssignOp.And (pos + 1)) ∧
      (P.get? pos = some Token.OrAssign →
        assign_op P pos = .Success AssignOp.Or (pos + 1)) ∧
      (P.get? pos = some Token.XOrAssign →
        assign_op P pos = .Success AssignOp.Xor (pos + 1)) ∧
      (P.get? pos = some Token.ModAssign →
        assign_op P pos = .Success AssignOp.Mod (pos + 1)) ∧
      (P.get? pos = some Token.LShift →
        assign_op P pos = .Success AssignOp.LShift (pos + 1)) ∧
      (P.get? pos = some Token.RShift →
        assign_op P pos = .Success AssignOp.RShift (pos + 1)) ∧
      (P.get? pos = some Token.URShiftAssign →
        assign_op P pos = .Success AssignOp.URShift (pos + 1)) ∧
      (P.get? pos = some Token.LShiftAssign → assign_op P pos = .Fail pos) ∧
      (P.get? pos = some Token.RShiftAssign → assign_op P pos = .Fail pos) := by
  intro P pos
  refine ⟨?_, ?_, ?_, ?_, ?_, ?_, ?_, ?_, ?_, ?_, ?_, ?_, ?_, ?_⟩ <;>
    intro h <;> simp only [assign_op, tokenRule, tokenAt, h]

/-- Witness for C1 at a concrete token vector: `-=` maps to Mul. -/
theorem c1_assign_op_mapping_witness :
    assign_op [Token.SubAssign] 0 = .Success AssignOp.Mul 1 :=
  (c1_assign_op_mapping [Token.SubAssign] 0).2.2.1 rfl

/-- C2 (code bug): the claim — backed by the source's own unit test
`import_mod_test`, which asserts `parser("a as b").import_variable(0)`
succeeds with cursor 3 — requires the lexer to classify lowercase `as` as
the keyword token.  The lexer's keyword literal is the uppercase `AS`, so
lowercase `as` lexes as an identifier and `import_variable` at 0 on
`a as b` succeeds with name `a`, **no** alias, and cursor 1. -/
theorem c2_as_keyword_code_bug :
    lex "a as b" = .ok [.Id "a", .Id "as", .Id "b"] ∧
    import_variable [.Id "a", .Id "as", .Id "b"] 30 0
      = .Success { name := { value := "a" }, alias_ := none } 1 :=
  ⟨rfl, rfl⟩

/-- C3 (code bug): the claim — matching the spec's grammar
`class_def ≔ … `\x7b` \x7b class_body \x7d `\x7d`` and the source test
`class_unit_test` — says class_def consumes the terminating `\x7d`.  The
code never parses an `RBrace` after the class_body repetitions: on
`class A \x7b\x7d` (4 tokens) class_def succeeds at cursor 3, leaving the
closing brace unconsumed. -/
theorem c3_class_def_code_bug :
    lex "class A \x7b\x7d" = .ok [.Class, .Id "A", .LBrace, .RBrace] ∧
    class_def [Token.Class, .Id "A", .LBrace, .RBrace] 30 0
      = .Success { attributes := [], foreign := false, name := { value := "A" },
                   inherit := none, elems := [] } 3 ∧
    ([Token.Class, Token.Id "A", Token.LBrace, Token.RBrace] : List Token).length = 4 :=
  ⟨rfl, rfl, rfl⟩

theorem hard_or_val {T : Type} {e : ParseError} (he : e.isHard) (d : T) :
    (ParseResult.Error e : ParseResult T).or_val d = .Error e := by
  cases e <;> first | rfl | exact absurd rfl (he _)

theorem hard_or_none {T : Type} {e : ParseError} (he : e.isHard) :
    (ParseResult.Error e : ParseResult T).or_none = .Error e := by
  cases e <;> first | rfl | exact absurd rfl (he _)

theorem hard_or {T : Type} {e : ParseError} (he : e.isHard)
    (f : Nat → ParseResult T) :
    (ParseResult.Error e : ParseResult T).or f = .Error e := by
  cases e <;> first | rfl | exact absurd rfl (he _)

theorem hard_or_last {T : Type} {e : ParseError} (he : e.isHard)
    (f : Nat → ParseResult T) :
    (ParseResult.Error e : ParseResult T).or_last f = .Error e := by
  cases e <;> first | rfl | exact absurd rfl (he _)

theorem hard_alt {T : Type} {e : ParseError} (he : e.isHard)
    (pos : Nat) (f : Nat → ParseResult T) :
    (((ParseResult.Error e : ParseResult T).or_from pos).or f).toResult
      = .Error e := by
  cases e <;> first | rfl | exact absurd rfl (he _)

theorem hard_combine_right {T R : Type} (e : ParseError)
    (r : ParseResult T) (hr : ∀ e2, r ≠ .Error e2)
    (comb : T → R → T × R) :
    r.combine (.Error e) comb = .Error e := by
  match r with
  | .Success v p => rfl
  | .Fail p => rfl
  | .Error e2 => exact absurd rfl (hr e2)

/-- C5: anchored alternation — if the current result is `Fail` or
`Error(ReachedEOF)`, `Alt::or` runs the next alternative at the anchor
itself and the alternation's result is exactly that alternative's result at
the anchor; any other current result passes through unchanged. -/
theorem c5_anchored_alternation :
    ∀ {T : Type} (a : Nat) (cur : ParseResult T) (g : Nat → ParseResult T),
      (∀ p, cur = .Fail p → ((cur.or_from a).or g).toResult = g a) ∧
      (∀ p, cur = .Error (.ReachedEOF p) →
        ((cur.or_from a).or g).toResult = g a) ∧
      ((∀ p, cur ≠ .Fail p) → (∀ p, cur ≠ .Error (.ReachedEOF p)) →
        ((cur.or_from a).or g).toResult = cur) := by
  intro T a cur g
  refine ⟨?_, ?_, ?_⟩
  · intro p h; subst h; rfl
  · intro p h; subst h; rfl
  · intro h1 h2
    match cur with
    | .Success v p => rfl
    | .Fail p => exact absurd rfl (h1 p)
    | .Error (.BadToken s sp) => rfl
    | .Error (.FailedOnValidation s p) => rfl
    | .Error .FinishedOnFail => rfl
    | .Error (.ReachedEOF p) => exact absurd rfl (h2 p)
    | .Error (.UnreachedEOF p) => rfl

/-- Witness for C5 at concrete data: a failed attempt that had advanced to
position 9 still hands the anchor 3 to the next alternative. -/
theorem c5_anchored_alternation_witness :
    (((ParseResult.Fail 9 : ParseResult Nat).or_from 3).or
      (fun p => .Success p p)).toResult = .Success 3 3 :=
  (c5_anchored_alternation 3 (ParseResult.Fail 9) (fun p => .Success p p)).1 9 rfl

/-- C8: the block rule at position 0 on `\x7b|| >> >>\x7d` fails at
position 1 — the `||` between the braces lexes as the single `Or` token, so
the pipe-delimited parameter list cannot be the empty `||` form. -/
theorem c8_block_empty_params :
    lex "\x7b|| >> >>\x7d" = .ok [.LBrace, .Or, .RShift, .RShift, .RBrace] ∧
    block [Token.LBrace, .Or, .RShift, .RShift, .RBrace] 30 0 = .Fail 1 :=
  ⟨rfl, rfl⟩

/-- C9: lexing `1 01 01 1e1 1e-1 0x1 1.1 1.0e1` yields exactly eight
`Digit` tokens valued `Int 1, Int 1, Int 1, Float 10, Float 0.1, Hex 1,
Float 1.1, Float 10`, and `0b1101` lexes to the single token
`Digit (Binary 13)` (float values as exact decimal rationals). -/
theorem c9_number_lexing :
    lex "1 01 01 1e1 1e-1 0x1 1.1 1.0e1"
      = .ok [.Digit (.Int 1), .Digit (.Int 1), .Digit (.Int 1),
             .Digit (.Float 10), .Digit (.Float (1 / 10)), .Digit (.Hex 1),
             .Digit (.Float (11 / 10)), .Digit (.Float 10)] ∧
    lex "0b1101" = .ok [.Digit (.Binary 13)] := by
  constructor
  · have h : lex "1 01 01 1e1 1e-1 0x1 1.1 1.0e1"
        = .ok [.Digit (.Int 1), .Digit (.Int 1), .Digit (.Int 1),
               .Digit (.Float (mkRat 10 1)), .Digit (.Float (mkRat 1 10)),
               .Digit (.Hex 1), .Digit (.Float (mkRat 11 10)),
               .Digit (.Float (mkRat 10 1))] := rfl
    rw [h]
    norm_num [Rat.mkRat_eq_div]
  · rfl

/-- C4 (counterexample): a hard error does not pass through every
combinator unchanged — the greedy repetition `then_multi_zip` stops its
loop on any non-Success of the repeated function, so a `BadToken` error
from the repeated function is converted into a `Success` carrying the
elements collected so far, not propagated. -/
theorem c4_counterexample :
    (ParseResult.Success (0 : Nat) 0).then_multi_zip 5
        (fun _ => .Error (.BadToken "x" (0, 0)))
      = .Success (0, ([] : List Nat)) 0 ∧
    (ParseResult.Success (0, ([] : List Nat)) 0 :
        ParseResult (Nat × List Nat)) ≠ .Error (.BadToken "x" (0, 0)) :=
  ⟨rfl, fun h => ParseResult.noConfusion h⟩

/-- C4 (amended): a hard error (any kind but `ReachedEOF`) short-circuits:
it passes unchanged through every combinator both as the incoming result
and as the continuation's result, and the only results `or`, `or_val`,
`or_none`, `then_or_val`-style combinators and anchored alternation recover
from are `Fail(p)` and `Error(ReachedEOF(p))` — with the one exception the
counterexample forces: the greedy repetition loop (`then_multi_combine` and
the iteration of `zero_or_more`/`one_or_more` past the first element) ends
on any non-Success of the repeated rule, a hard error included, keeping the
collected successes; a hard error of the first attempt of
`zero_or_more`/`one_or_more` still passes through unchanged. -/
theorem c4_hard_error_propagation :
    ∀ (e : ParseError), e.isHard →
    ∀ {T R : Type} (d : T) (dr : R) (v : T) (pos fuel : Nat)
      (f : Nat → ParseResult T) (g : Nat → ParseResult R) (m : T → R)
      (ch : T → Except String PUnit),
      ((ParseResult.Error e : ParseResult T).map m = .Error e) ∧
      ((ParseResult.Error e : ParseResult T).ok = .Error e) ∧
      ((ParseResult.Error e : ParseResult (T × R)).take_left = .Error e) ∧
      ((ParseResult.Error e : ParseResult (T × R)).take_right = .Error e) ∧
      ((ParseResult.Error e : ParseResult (T × List T)).merge = .Error e) ∧
      ((ParseResult.Error e : ParseResult T).then_zip g = .Error e) ∧
      ((ParseResult.Error e : ParseResult T).thenP g = .Error e) ∧
      ((ParseResult.Error e : ParseResult T).then_multi_zip fuel g = .Error e) ∧
      ((ParseResult.Error e : ParseResult T).then_or_val_zip g dr = .Error e) ∧
      ((ParseResult.Error e : ParseResult T).then_or_none_zip
        (fun p => (g p).ok) = .Error e) ∧
      ((ParseResult.Error e : ParseResult T).then_or_val g dr = .Error e) ∧
      ((ParseResult.Error e : ParseResult T).then_or_none
        (fun p => (g p).ok) = .Error e) ∧
      ((ParseResult.Error e : ParseResult T).validate ch = .Error e) ∧
      ((ParseResult.Error e : ParseResult T).or_val d = .Error e) ∧
      ((ParseResult.Error e : ParseResult T).or_none = .Error e) ∧
      ((ParseResult.Error e : ParseResult T).or f = .Error e) ∧
      ((ParseResult.Error e : ParseResult T).or_last f = .Error e) ∧
      ((((ParseResult.Error e : ParseResult T).or_from pos).or f).toResult
        = .Error e) ∧
      ((ParseResult.Error e : ParseResult T).combine (.Success dr pos)
        (fun a b => (a, b)) = .Error e) ∧
      ((ParseResult.Success v pos).combine (.Error e : ParseResult R)
        (fun a b => (a, b)) = .Error e) ∧
      ((ParseResult.Fail pos : ParseResult T).combine
        (.Error e : ParseResult R) (fun a b => (a, b)) = .Error e) ∧
      ((ParseResult.Success v pos).then_zip
        (fun _ => (.Error e : ParseResult R)) = .Error e) ∧
      ((ParseResult.Success v pos).then_or_val_zip
        (fun _ => (.Error e : ParseResult R)) dr = .Error e) ∧
      ((ParseResult.Success v pos).then_or_none_zip
        (fun _ => (.Error e : ParseResult (Option R))) = .Error e) ∧
      ((ParseResult.Success v pos).then_or_val
        (fun _ => (.Error e : ParseResult R)) dr = .Error e) ∧
      ((ParseResult.Fail pos : ParseResult T).or_val d = .Success d pos) ∧
      ((ParseResult.Error (.ReachedEOF pos) : ParseResult T).or_val d
        = .Success d pos) ∧
      ((ParseResult.Success v pos).or_val d = .Success v pos) ∧
      ((ParseResult.Fail pos : ParseResult T).or_none = .Success none pos) ∧
      ((ParseResult.Error (.ReachedEOF pos) : ParseResult T).or_none
        = .Success none pos) ∧
      ((ParseResult.Fail pos : ParseResult T).or f = f pos) ∧
      ((ParseResult.Error (.ReachedEOF pos) : ParseResult T).or f = f pos) ∧
      ((ParseResult.Success v pos).or f = .Success v pos) ∧
      ((ParseResult.Success v pos).then_or_val_zip (fun p => .Fail p) dr
        = .Success (v, dr) pos) ∧
      ((ParseResult.Success v pos).then_or_val_zip
        (fun p => .Error (.ReachedEOF p)) dr = .Success (v, dr) pos) ∧
      ((ParseResult.Success v pos).then_multi_zip (fuel + 1)
        (fun _ => (.Error e : ParseResult R)) = .Success (v, []) pos) ∧
      (f pos = .Error e → zero_or_more fuel pos f = .Error e) ∧
      (f pos = .Error e → one_or_more fuel pos f = .Error e) := by
  intro e he T R d dr v pos fuel f g m ch
  refine ⟨rfl, rfl, rfl, rfl, rfl, rfl, rfl, rfl, rfl, rfl, rfl, rfl, rfl,
    hard_or_val he d, hard_or_none he, hard_or he f, hard_or_last he f,
    hard_alt he pos f, ?_, ?_, ?_, rfl,
    ?_, ?_, ?_, rfl, rfl, rfl, rfl, rfl, rfl, rfl, rfl, rfl, rfl, rfl,
    ?_, ?_⟩
  · cases e <;> rfl
  · cases e <;> rfl
  · cases e <;> rfl
  · cases e <;> first | rfl | exact absurd rfl (he _)
  · cases e <;> first | rfl | exact absurd rfl (he _)
  · cases e <;> first | rfl | exact absurd rfl (he _)
  · intro hf
    cases e with
    | ReachedEOF p => exact absurd rfl (he p)
    | BadToken s sp => simp [zero_or_more, ParseResult.then_multi_zip,
        ParseResult.then_multi_combine, ParseResult.merge, ParseResult.map, hf]
    | FailedOnValidation s p => simp [zero_or_more, ParseResult.then_multi_zip,
        ParseResult.then_multi_combine, ParseResult.merge, ParseResult.map, hf]
    | FinishedOnFail => simp [zero_or_more, ParseResult.then_multi_zip,
        ParseResult.then_multi_combine, ParseResult.merge, ParseResult.map, hf]
    | UnreachedEOF p => simp [zero_or_more, ParseResult.then_multi_zip,
        ParseResult.then_multi_combine, ParseResult.merge, ParseResult.map, hf]
  · intro hf
    cases e with
    | ReachedEOF p => exact absurd rfl (he p)
    | BadToken s sp => simp [one_or_more, zero_or_more,
        ParseResult.then_multi_zip, ParseResult.then_multi_combine,
        ParseResult.merge, ParseResult.map, hf]
    | FailedOnValidation s p => simp [one_or_more, zero_or_more,
        ParseResult.then_multi_zip, ParseResult.then_multi_combine,
        ParseResult.merge, ParseResult.map, hf]
    | FinishedOnFail => simp [one_or_more, zero_or_more,
        ParseResult.then_multi_zip, ParseResult.then_multi_combine,
        ParseResult.merge, ParseResult.map, hf]
    | UnreachedEOF p => simp [one_or_more, zero_or_more,
        ParseResult.then_multi_zip, ParseResult.then_multi_combine,
        ParseResult.merge, ParseResult.map, hf]

/-- Witness for C4 at a concrete hard error and concrete data. -/
theorem c4_hard_error_propagation_witness :
    (ParseResult.Error ParseError.FinishedOnFail : ParseResult Nat).or_val 7
      = .Error .FinishedOnFail :=
  (c4_hard_error_propagation .FinishedOnFail
    (fun p h => ParseError.noConfusion h) 7 7 0 0 3
    (fun p => .Fail p) (fun p => .Fail p) (fun x => x)
    (fun _ => .ok PUnit.unit)).2.2.2.2.2.2.2.2.2.2.2.2.2.1

/-! Cursor-sanity lemmas for the combinator algebra, used to establish the
`Good` invariant of every grammar rule by induction on the fuel level. -/

section GoodLemmas

variable {T R S : Type} {pos len : Nat}

theorem good_wgood {r : ParseResult T} (h : Good pos len r) :
    Wgood pos len r := by
  cases r with
  | Success v p => exact ⟨Nat.le_of_lt h.1, h.2⟩
  | Fail p => exact h
  | Error e => cases e <;> exact h

theorem good_mono {q : Nat} (hpq : pos ≤ q) {r : ParseResult T}
    (h : Good q len r) : Good pos len r := by
  cases r with
  | Success v p => exact ⟨Nat.lt_of_le_of_lt hpq h.1, h.2⟩
  | Fail p => exact ⟨le_trans hpq h.1, h.2⟩
  | Error e =>
    cases e <;> first
      | exact h
      | exact ⟨le_trans hpq h.1, h.2⟩

theorem wgood_mono {q : Nat} (hpq : pos ≤ q) {r : ParseResult T}
    (h : Wgood q len r) : Wgood pos len r := by
  cases r with
  | Success v p => exact ⟨le_trans hpq h.1, h.2⟩
  | Fail p => exact ⟨le_trans hpq h.1, h.2⟩
  | Error e =>
    cases e <;> first
      | exact h
      | exact ⟨le_trans hpq h.1, h.2⟩

theorem tokenRule_good {α : Type} (P : List Token) (arms : Token → Option α)
    (pos : Nat) (hp : pos ≤ P.length) :
    Good pos P.length (tokenRule P pos arms) := by
  unfold tokenRule tokenAt
  cases hg : P.get? pos with
  | none => exact ⟨le_refl _, hp⟩
  | some t =>
    have hlt : pos < P.length := (List.get?_eq_some.1 hg).1
    show Good pos P.length
      (match arms t with
        | some v => ParseResult.Success v (pos + 1)
        | none => ParseResult.Fail pos)
    cases ha : arms t with
    | some v => exact ⟨Nat.lt_succ_self pos, hlt⟩
    | none => exact ⟨le_refl _, hp⟩

theorem map_good {f : T → R} {r : ParseResult T} (h : Good pos len r) :
    Good pos len (r.map f) := by
  cases r with
  | Success v p => exact h
  | Fail p => exact h
  | Error e => cases e <;> exact h

theorem map_wgood {f : T → R} {r : ParseResult T} (h : Wgood pos len r) :
    Wgood pos len (r.map f) := by
  cases r with
  | Success v p => exact h
  | Fail p => exact h
  | Error e => cases e <;> exact h

theorem or_val_wgood {d : T} {r : ParseResult T} (h : Wgood pos len r) :
    Wgood pos len (r.or_val d) := by
  cases r with
  | Success v p => exact h
  | Fail p => exact h
  | Error e => cases e <;> exact h

theorem or_none_wgood {r : ParseResult T} (h : Wgood pos len r) :
    Wgood pos len r.or_none :=
  or_val_wgood (map_wgood h)

theorem thenc_gw {r : ParseResult T} {f : Nat → ParseResult R} {c : T → R → S}
    (hr : Good pos len r) (hf : ∀ u, u ≤ len → Wgood u len (f u)) :
    Good pos len (r.then_combine f c) := by
  cases r with
  | Success t p =>
    simp only [ParseResult.then_combine]
    have hw := hf p hr.2
    cases hq : f p with
    | Success v u => rw [hq] at hw; exact ⟨Nat.lt_of_lt_of_le hr.1 hw.1, hw.2⟩
    | Fail u => rw [hq] at hw; exact ⟨le_trans (Nat.le_of_lt hr.1) hw.1, hw.2⟩
    | Error e =>
      rw [hq] at hw
      cases e <;> first
        | exact hw
        | exact ⟨le_trans (Nat.le_of_lt hr.1) hw.1, hw.2⟩
  | Fail p => exact hr
  | Error e => cases e <;> exact hr

theorem thenc_wg {r : ParseResult T} {f : Nat → ParseResult R} {c : T → R → S}
    (hr : Wgood pos len r) (hf : ∀ u, u ≤ len → Good u len (f u)) :
    Good pos len (r.then_combine f c) := by
  cases r with
  | Success t p =>
    simp only [ParseResult.then_combine]
    have hw := hf p hr.2
    cases hq : f p with
    | Success v u => rw [hq] at hw; exact ⟨Nat.lt_of_le_of_lt hr.1 hw.1, hw.2⟩
    | Fail u => rw [hq] at hw; exact ⟨le_trans hr.1 hw.1, hw.2⟩
    | Error e =>
      rw [hq] at hw
      cases e <;> first
        | exact hw
        | exact ⟨le_trans hr.1 hw.1, hw.2⟩
  | Fail p => exact hr
  | Error e => cases e <;> exact hr

theorem thenc_ww {r : ParseResult T} {f : Nat → ParseResult R} {c : T → R → S}
    (hr : Wgood pos len r) (hf : ∀ u, u ≤ len → Wgood u len (f u)) :
    Wgood pos len (r.then_combine f c) := by
  cases r with
  | Success t p =>
    simp only [ParseResult.then_combine]
    have hw := hf p hr.2
    cases hq : f p with
    | Success v u => rw [hq] at hw; exact ⟨le_trans hr.1 hw.1, hw.2⟩
    | Fail u => rw [hq] at hw; exact ⟨le_trans hr.1 hw.1, hw.2⟩
    | Error e =>
      rw [hq] at hw
      cases e <;> first
        | exact hw
        | exact ⟨le_trans hr.1 hw.1, hw.2⟩
  | Fail p => exact hr
  | Error e => cases e <;> exact hr

theorem toval_gw {r : ParseResult T} {f : Nat → ParseResult R} {d : R}
    {c : T → R → S} (hr : Good pos len r)
    (hf : ∀ u, u ≤ len → Wgood u len (f u)) :
    Good pos len (r.then_or_val_combine f d c) := by
  cases r with
  | Success t p =>
    simp only [ParseResult.then_or_val_combine]
    have hw := hf p hr.2
    cases hq : f p with
    | Success v u => rw [hq] at hw; exact ⟨Nat.lt_of_lt_of_le hr.1 hw.1, hw.2⟩
    | Fail u => rw [hq] at hw; exact ⟨Nat.lt_of_lt_of_le hr.1 hw.1, hw.2⟩
    | Error e =>
      rw [hq] at hw
      cases e <;> first
        | exact hw
        | exact ⟨Nat.lt_of_lt_of_le hr.1 hw.1, hw.2⟩
  | Fail p => exact hr
  | Error e => cases e <;> exact hr

theorem toval_ww {r : ParseResult T} {f : Nat → ParseResult R} {d : R}
    {c : T → R → S} (hr : Wgood pos len r)
    (hf : ∀ u, u ≤ len → Wgood u len (f u)) :
    Wgood pos len (r.then_or_val_combine f d c) := by
  cases r with
  | Success t p =>
    simp only [ParseResult.then_or_val_combine]
    have hw := hf p hr.2
    cases hq : f p with
    | Success v u => rw [hq] at hw; exact ⟨le_trans hr.1 hw.1, hw.2⟩
    | Fail u => rw [hq] at hw; exact ⟨le_trans hr.1 hw.1, hw.2⟩
    | Error e =>
      rw [hq] at hw
      cases e <;> first
        | exact hw
        | exact ⟨le_trans hr.1 hw.1, hw.2⟩
  | Fail p => exact hr
  | Error e => cases e <;> exact hr

theorem tovalm_gw {r : ParseResult T} {f : Nat → ParseResult R} {d : R}
    (hr : Good pos len r) (hf : ∀ u, u ≤ len → Wgood u len (f u)) :
    Good pos len (r.then_or_val f d) := by
  cases r with
  | Success t p =>
    simp only [ParseResult.then_or_val]
    have hw := hf p hr.2
    cases hq : f p with
    | Success v u => rw [hq] at hw; exact ⟨Nat.lt_of_lt_of_le hr.1 hw.1, hw.2⟩
    | Fail u => rw [hq] at hw; exact ⟨Nat.lt_of_lt_of_le hr.1 hw.1, hw.2⟩
    | Error e =>
      rw [hq] at hw
      cases e <;> first
        | exact hw
        | exact ⟨Nat.lt_of_lt_of_le hr.1 hw.1, hw.2⟩
  | Fail p => exact hr
  | Error e => cases e <;> exact hr

theorem multiLoop_bounds {f : Nat → ParseResult R}
    (hf : ∀ u, u ≤ len → Wgood u len (f u)) :
    ∀ (fu p : Nat) (acc : List R), p ≤ len →
      p ≤ (ParseResult.multiLoop f fu p acc).2 ∧
      (ParseResult.multiLoop f fu p acc).2 ≤ len := by
  intro fu
  induction fu with
  | zero => intro p acc hp; exact ⟨le_refl _, hp⟩
  | succ fu ih =>
    intro p acc hp
    simp only [ParseResult.multiLoop]
    cases hq : f p with
    | Success v u =>
      have hw := hf p hp
      rw [hq] at hw
      have hb := ih u (acc ++ [v]) hw.2
      exact ⟨le_trans hw.1 hb.1, hb.2⟩
    | Fail u => exact ⟨le_refl _, hp⟩
    | Error e => exact ⟨le_refl _, hp⟩

theorem tmulti_g {r : ParseResult T} {f : Nat → ParseResult R} {fu : Nat}
    {c : T → List R → S} (hr : Good pos len r)
    (hf : ∀ u, u ≤ len → Wgood u len (f u)) :
    Good pos len (r.then_multi_combine fu f c) := by
  cases r with
  | Success t p =>
    simp only [ParseResult.then_multi_combine]
    have hb := multiLoop_bounds hf fu p [] hr.2
    exact ⟨Nat.lt_of_lt_of_le hr.1 hb.1, hb.2⟩
  | Fail p => exact hr
  | Error e => cases e <;> exact hr

theorem tmulti_w {r : ParseResult T} {f : Nat → ParseResult R} {fu : Nat}
    {c : T → List R → S} (hr : Wgood pos len r)
    (hf : ∀ u, u ≤ len → Wgood u len (f u)) :
    Wgood pos len (r.then_multi_combine fu f c) := by
  cases r with
  | Success t p =>
    simp only [ParseResult.then_multi_combine]
    have hb := multiLoop_bounds hf fu p [] hr.2
    exact ⟨le_trans hr.1 hb.1, hb.2⟩
  | Fail p => exact hr
  | Error e => cases e <;> exact hr

theorem orlast_good {r : ParseResult T} {g : Nat → ParseResult T}
    (hr : Good pos len r) (hg : ∀ u, u ≤ len → Good u len (g u)) :
    Good pos len (r.or_last g) := by
  cases r with
  | Success v p => exact hr
  | Fail p => exact good_mono hr.1 (hg p hr.2)
  | Error e =>
    cases e <;> first
      | exact hr
      | exact good_mono hr.1 (hg _ hr.2)

theorem or_good {r : ParseResult T} {g : Nat → ParseResult T}
    (hr : Good pos len r) (hg : ∀ u, u ≤ len → Good u len (g u)) :
    Good pos len (r.or g) := by
  cases r with
  | Success v p => exact hr
  | Fail p => exact good_mono hr.1 (hg p hr.2)
  | Error e =>
    cases e <;> first
      | exact hr
      | exact good_mono hr.1 (hg _ hr.2)

theorem or_from_ag {a : Nat} {r : ParseResult T} (h : Good a len r) :
    AltGood a len (r.or_from a) :=
  ⟨rfl, h⟩

theorem or_ag {a : Nat} {alt : Alt T} {g : Nat → ParseResult T}
    (h : AltGood a len alt) (ha : a ≤ len)
    (hg : ∀ u, u ≤ len → Good u len (g u)) :
    AltGood a len (alt.or g) := by
  obtain ⟨i, cur⟩ := alt
  obtain ⟨hi, hc⟩ := h
  cases hi
  cases cur with
  | Success v p => exact ⟨rfl, hc⟩
  | Fail p => exact ⟨rfl, hg _ ha⟩
  | Error e =>
    cases e <;> first
      | exact ⟨rfl, hc⟩
      | exact ⟨rfl, hg _ ha⟩

theorem toResult_ag {a : Nat} {alt : Alt T} (h : AltGood a len alt) :
    Good a len alt.toResult :=
  h.2

theorem zom_success {f : Nat → ParseResult R}
    (hf : ∀ u, u ≤ len → Wgood u len (f u)) (fu pos : Nat) (hp : pos ≤ len) :
    ∃ vals q, zero_or_more fu pos f = .Success vals q ∧ pos ≤ q ∧ q ≤ len := by
  unfold zero_or_more
  have hw := hf pos hp
  cases hq : f pos with
  | Success v p =>
    rw [hq] at hw
    have hb := multiLoop_bounds hf fu p [] hw.2
    simp only [ParseResult.then_multi_zip, ParseResult.then_multi_combine, hq,
      ParseResult.merge, ParseResult.map]
    exact ⟨_, _, rfl, le_trans hw.1 hb.1, hb.2⟩
  | Fail p =>
    simp only [ParseResult.then_multi_zip, ParseResult.then_multi_combine, hq,
      ParseResult.merge, ParseResult.map]
    exact ⟨[], pos, rfl, le_refl _, hp⟩
  | Error e =>
    rw [hq] at hw
    cases e <;> first
      | exact hw.elim
      | (simp only [ParseResult.then_multi_zip, ParseResult.then_multi_combine,
          hq, ParseResult.merge, ParseResult.map]
         exact ⟨[], pos, rfl, le_refl _, hp⟩)

theorem zom_wgood {f : Nat → ParseResult R}
    (hf : ∀ u, u ≤ len → Wgood u len (f u)) (fu pos : Nat) (hp : pos ≤ len) :
    Wgood pos len (zero_or_more fu pos f) := by
  obtain ⟨vals, q, heq, h1, h2⟩ := zom_success hf fu pos hp
  rw [heq]
  exact ⟨h1, h2⟩

theorem oom_good {f : Nat → ParseResult R}
    (hf : ∀ u, u ≤ len → Good u len (f u)) (fu pos : Nat) (hp : pos ≤ len) :
    Good pos len (one_or_more fu pos f) := by
  unfold one_or_more zero_or_more
  have hw := hf pos hp
  cases hq : f pos with
  | Success v p =>
    rw [hq] at hw
    have hb := multiLoop_bounds (fun u hu => good_wgood (hf u hu)) fu p [] hw.2
    simp only [ParseResult.then_multi_zip, ParseResult.then_multi_combine, hq,
      ParseResult.merge, ParseResult.map, List.isEmpty_cons, Bool.false_eq_true,
      if_false]
    exact ⟨Nat.lt_of_lt_of_le hw.1 hb.1, hb.2⟩
  | Fail p =>
    simp only [ParseResult.then_multi_zip, ParseResult.then_multi_combine, hq,
      ParseResult.merge, ParseResult.map, List.isEmpty_nil, if_true]
    exact ⟨le_refl _, hp⟩
  | Error e =>
    rw [hq] at hw
    cases e <;> first
      | exact hw.elim
      | (simp only [ParseResult.then_multi_zip, ParseResult.then_multi_combine,
          hq, ParseResult.merge, ParseResult.map, List.isEmpty_nil, if_true]
         exact ⟨le_refl _, hp⟩)

end GoodLemmas

/-- goodRulesAt: every grammar rule, at every fuel level and every in-range
entry cursor, satisfies the `Good` invariant — a `Success` strictly advances
the cursor and never past the token count, a `Fail` position stays within
`[entry, token count]`, and the only `Error` a rule produces is
`ReachedEOF` with an in-range payload.  Proved by induction on the fuel
level, rule by rule through the combinator lemmas above. -/
theorem goodRulesAt (P : List Token) :
    ∀ fuel, GoodRules P.length (rulesAt P fuel) := by
  intro fuel
  induction fuel with
  | zero => constructor <;> exact fun pos hp => ⟨le_refl _, hp⟩
  | succ fuel ih =>
    refine ⟨?_, ?_, ?_, ?_, ?_, ?_, ?_, ?_, ?_, ?_, ?_, ?_, ?_, ?_, ?_, ?_,
      ?_, ?_, ?_, ?_, ?_, ?_, ?_, ?_, ?_, ?_, ?_, ?_, ?_, ?_, ?_, ?_, ?_,
      ?_, ?_, ?_, ?_, ?_⟩
    -- id
    · exact fun pos hp => tokenRule_good P _ pos hp
    -- number
    · exact fun pos hp => tokenRule_good P _ pos hp
    -- null
    · exact fun pos hp => tokenRule_good P _ pos hp
    -- bool
    · exact fun pos hp => tokenRule_good P _ pos hp
    -- char
    · exact fun pos hp => tokenRule_good P _ pos hp
    -- string
    · exact fun pos hp => tokenRule_good P _ pos hp
    -- number_expr
    · exact fun pos hp => map_good (ih.number pos hp)
    -- map_init
    · intro pos hp
      exact map_good (map_good (thenc_gw
        (thenc_gw (tokenRule_good P _ pos hp)
          (fun u hu => or_val_wgood (good_wgood (map_good (tmulti_g
            (thenc_gw (map_good (thenc_gw (ih.expression u hu)
                (fun w hw => good_wgood (tokenRule_good P _ w hw))))
              (fun w hw => good_wgood (ih.expression w hw)))
            (fun w hw => good_wgood (thenc_gw (tokenRule_good P _ w hw)
              (fun y hy => good_wgood (thenc_gw
                (map_good (thenc_gw (ih.expression y hy)
                  (fun z hz => good_wgood (tokenRule_good P _ z hz))))
                (fun z hz => good_wgood (ih.expression z hz)))))))))))
        (fun u hu => good_wgood (tokenRule_good P _ u hu))))
    -- list_init
    · intro pos hp
      exact map_good (thenc_gw (tovalm_gw (tokenRule_good P _ pos hp)
          (fun u hu => good_wgood (ih.enumeration u hu)))
        (fun u hu => good_wgood (tokenRule_good P _ u hu)))
    -- elvis
    · intro pos hp
      exact map_good (thenc_gw (map_good (thenc_gw
          (thenc_gw (tokenRule_good P _ pos hp)
            (fun u hu => good_wgood (ih.expression u hu)))
          (fun u hu => good_wgood (tokenRule_good P _ u hu))))
        (fun u hu => good_wgood (ih.expression u hu)))
    -- expression
    · intro pos hp
      exact toResult_ag (or_ag (or_ag (or_ag (or_from_ag
          (map_good (thenc_gw (toResult_ag (or_ag (or_ag (or_from_ag
              (map_good (ih.atom pos hp))) hp
              (fun u hu => map_good (thenc_gw (tokenRule_good P _ u hu)
                (fun w hw => good_wgood (ih.expression w hw))))) hp
              (fun u hu => map_good (thenc_gw
                (thenc_gw (tokenRule_good P _ u hu)
                  (fun w hw => good_wgood (ih.expression w hw)))
                (fun w hw => good_wgood (tokenRule_good P _ w hw))))))
            (fun u hu => good_wgood (ih.compound_expr u hu))))) hp
          (fun u hu => map_good (thenc_gw (tokenRule_good P _ u hu)
            (fun w hw => good_wgood (ih.expression w hw))))) hp
          (fun u hu => map_good (thenc_gw
            (thenc_gw (tokenRule_good P _ u hu)
              (fun w hw => good_wgood (ih.expression w hw)))
            (fun w hw => good_wgood (tokenRule_good P _ w hw))))) hp
          (fun u hu => map_good (ih.atom u hu)))
    -- enumeration
    · intro pos hp
      exact map_good (map_good (tmulti_g (ih.expression pos hp)
        (fun u hu => good_wgood (thenc_gw (tokenRule_good P _ u hu)
          (fun w hw => good_wgood (ih.expression w hw))))))
    -- statement
    · intro pos hp
      exact toResult_ag (or_ag (or_ag (or_ag (or_ag (or_ag (or_ag (or_ag
          (or_from_ag (map_good (ih.assignment pos hp))) hp
          (fun u hu => map_good (ih.assignment_null u hu))) hp
          (fun u hu => map_good (ih.block u hu))) hp
          (fun u hu => map_good (ih.expression u hu))) hp
          (fun u hu => map_good (ih.if_statement u hu))) hp
          (fun u hu => map_good (ih.while_statement u hu))) hp
          (fun u hu => map_good (ih.for_statement u hu))) hp
          (fun u hu => map_good (thenc_gw (tokenRule_good P _ u hu)
            (fun w hw => good_wgood (ih.expression w hw)))))
    -- file_unit
    · intro pos hp
      exact toResult_ag (or_ag (or_ag (or_ag (or_ag
          (or_from_ag (map_good (ih.class_def pos hp))) hp
          (fun u hu => map_good (ih.function u hu))) hp
          (fun u hu => map_good (ih.import_module u hu))) hp
          (fun u hu => map_good (ih.statement u hu))) hp
          (fun u hu => map_good (ih.block u hu)))
    -- script
    · intro pos hp
      exact map_good (oom_good (fun u hu => ih.file_unit u hu) fuel pos hp)
    -- assignment
    · intro pos hp
      exact map_good (thenc_gw (thenc_gw
          (thenc_wg (or_val_wgood (good_wgood (tokenRule_good P _ pos hp)))
            (fun u hu => ih.expression u hu))
          (fun u hu => good_wgood (tokenRule_good P _ u hu)))
        (fun u hu => good_wgood (toResult_ag (or_ag (or_from_ag
          (map_good (ih.expression u hu))) hu
          (fun w hw => map_good
            (oom_good (fun y hy => ih.assignment y hy) fuel w hw))))))
    -- assignment_null
    · intro pos hp
      exact map_good (thenc_gw (tokenRule_good P _ pos hp)
        (fun u hu => good_wgood (ih.id u hu)))
    -- if_statement
    · intro pos hp
      exact map_good (toval_gw (thenc_gw
          (map_good (thenc_gw (map_good (thenc_gw
              (thenc_gw (thenc_gw (tokenRule_good P _ pos hp)
                (fun u hu => good_wgood (tokenRule_good P _ u hu)))
                (fun u hu => good_wgood (ih.expression u hu)))
              (fun u hu => good_wgood (tokenRule_good P _ u hu))))
            (fun u hu => good_wgood (ih.statement u hu))))
          (fun u hu => zom_wgood (fun w hw => good_wgood (thenc_gw
            (tokenRule_good P _ w hw)
            (fun y hy => good_wgood (map_good (thenc_gw (map_good (thenc_gw
                (thenc_gw (thenc_gw (tokenRule_good P _ y hy)
                  (fun z hz => good_wgood (tokenRule_good P _ z hz)))
                  (fun z hz => good_wgood (ih.expression z hz)))
                (fun z hz => good_wgood (tokenRule_good P _ z hz))))
              (fun z hz => good_wgood (ih.statement z hz))))))) fuel u hu))
        (fun u hu => or_none_wgood (good_wgood (thenc_gw
          (tokenRule_good P _ u hu)
          (fun w hw => good_wgood (ih.statement w hw))))))
    -- block
    · intro pos hp
      exact map_good (thenc_gw (map_good (tmulti_g
          (tovalm_gw (tokenRule_good P _ pos hp)
            (fun u hu => good_wgood (map_good (thenc_gw
              (thenc_gw (tokenRule_good P _ u hu)
                (fun w hw => good_wgood (ih.params w hw)))
              (fun w hw => good_wgood (tokenRule_good P _ w hw))))))
          (fun u hu => good_wgood (ih.statement u hu))))
        (fun u hu => good_wgood (tokenRule_good P _ u hu)))
    -- params
    · intro pos hp
      exact map_good (map_good (tmulti_g (ih.id pos hp)
        (fun u hu => good_wgood (thenc_gw (tokenRule_good P _ u hu)
          (fun w hw => good_wgood (ih.id w hw))))))
    -- call
    · intro pos hp
      exact map_good (toval_gw (toval_gw (ih.id pos hp)
          (fun u hu => good_wgood (orlast_good (map_good (ih.block u hu))
            (fun w hw => map_good (map_good (thenc_gw
              (tovalm_gw (tokenRule_good P _ w hw)
                (fun y hy => good_wgood (ih.enumeration y hy)))
              (fun y hy => good_wgood (tokenRule_good P _ y hy))))))))
        (fun u hu => or_none_wgood (good_wgood (thenc_gw
          (tokenRule_good P _ u hu)
          (fun w hw => good_wgood (ih.call w hw))))))
    -- collection_elem
    · intro pos hp
      exact map_good (thenc_gw
        (orlast_good (map_good (ih.string pos hp))
          (fun u hu => ih.call u hu))
        (fun u hu => good_wgood (ih.list_init u hu)))
    -- import_variable
    · intro pos hp
      exact map_good (toval_gw (ih.id pos hp)
        (fun u hu => good_wgood (tovalm_gw (tokenRule_good P _ u hu)
          (fun w hw => or_none_wgood (good_wgood (ih.id w hw))))))
    -- import_module
    · intro pos hp
      exact map_good (toval_gw (thenc_gw (tokenRule_good P _ pos hp)
          (fun u hu => good_wgood (ih.string u hu)))
        (fun u hu => good_wgood (map_good (tmulti_g
          (thenc_gw (tokenRule_good P _ u hu)
            (fun w hw => good_wgood (ih.import_variable w hw)))
          (fun w hw => good_wgood (thenc_gw (tokenRule_good P _ w hw)
            (fun y hy => good_wgood (ih.import_variable y hy))))))))
    -- range
    · intro pos hp
      exact map_good (thenc_gw (thenc_gw
          (orlast_good (map_good (ih.call pos hp))
            (fun u hu => map_good (ih.number u hu)))
          (fun u hu => good_wgood (tokenRule_good P _ u hu)))
        (fun u hu => good_wgood (orlast_good (map_good (ih.call u hu))
          (fun w hw => map_good (ih.number w hw)))))
    -- atom
    · intro pos hp
      exact toResult_ag (or_ag (or_ag (or_ag (or_ag (or_ag (or_ag (or_ag
          (or_ag (or_ag (or_ag (or_ag (or_ag (or_ag
          (or_from_ag (ih.bool pos hp)) hp
          (fun u hu => map_good (ih.import_module u hu))) hp
          (fun u hu => map_good (ih.range u hu))) hp
          (fun u hu => ih.char u hu)) hp
          (fun u hu => map_good (ih.string u hu))) hp
          (fun u hu => map_good (ih.number u hu))) hp
          (fun u hu => ih.null u hu)) hp
          (fun u hu => map_good (ih.list_init u hu))) hp
          (fun u hu => ih.map_init u hu)) hp
          (fun u hu => ih.collection_elem u hu)) hp
          (fun u hu => map_good (ih.call u hu))) hp
          (fun u hu => tokenRule_good P _ u hu)) hp
          (fun u hu => tokenRule_good P _ u hu)) hp
          (fun u hu => map_good (thenc_gw (tokenRule_good P _ u hu)
            (fun w hw => good_wgood (ih.atom w hw)))))
    -- function
    · intro pos hp
      exact map_good (toval_gw (thenc_gw (ih.id pos hp)
          (fun u hu => good_wgood (map_good (thenc_gw
            (tovalm_gw (tokenRule_good P _ u hu)
              (fun w hw => good_wgood (ih.params w hw)))
            (fun w hw => good_wgood (tokenRule_good P _ w hw))))))
        (fun u hu => or_none_wgood (good_wgood (ih.block u hu))))
    -- logic_atom
    · intro pos hp
      exact map_good (thenc_gw (tokenRule_good P _ pos hp)
        (fun u hu => good_wgood (ih.expression u hu)))
    -- compound_expr
    · intro pos hp
      exact toResult_ag (or_ag (or_ag (or_ag (or_ag
          (or_from_ag (map_good (ih.logic pos hp))) hp
          (fun u hu => map_good (ih.arith u hu))) hp
          (fun u hu => map_good (ih.elvis u hu))) hp
          (fun u hu => map_good (thenc_gw (tokenRule_good P _ u hu)
            (fun w hw => good_wgood (ih.call w hw))))) hp
          (fun u hu => map_good (thenc_gw (tokenRule_good P _ u hu)
            (fun w hw => good_wgood (ih.expression w hw)))))
    -- logic
    · intro pos hp
      exact map_good (tmulti_g
        (map_good (tmulti_g (ih.logic_atom pos hp)
          (fun u hu => good_wgood (thenc_gw
            (thenc_gw (tokenRule_good P _ u hu)
              (fun w hw => good_wgood (ih.expression w hw)))
            (fun w hw => good_wgood (ih.logic_atom w hw))))))
        (fun u hu => good_wgood (thenc_gw
          (thenc_gw (tokenRule_good P _ u hu)
            (fun w hw => good_wgood (ih.expression w hw)))
          (fun w hw => good_wgood (map_good (tmulti_g (ih.logic_atom w hw)
            (fun y hy => good_wgood (thenc_gw
              (thenc_gw (tokenRule_good P _ y hy)
                (fun z hz => good_wgood (ih.expression z hz)))
              (fun z hz => good_wgood (ih.logic_atom z hz))))))))))
    -- arith
    · intro pos hp
      exact orlast_good (orlast_good (orlast_good (orlast_good
          (map_good (thenc_gw (tokenRule_good P _ pos hp)
            (fun w hw => good_wgood (ih.expression w hw))))
          (fun u hu => map_good (thenc_gw (tokenRule_good P _ u hu)
            (fun w hw => good_wgood (orlast_good
              (map_good (thenc_gw (tokenRule_good P _ w hw)
                (fun y hy => good_wgood (ih.expression y hy))))
              (fun y hy => map_good (ih.expression y hy)))))))
          (fun u hu => map_good (thenc_gw (tokenRule_good P _ u hu)
            (fun w hw => good_wgood (orlast_good
              (map_good (thenc_gw (tokenRule_good P _ w hw)
                (fun y hy => good_wgood (orlast_good
                  (map_good (thenc_gw (tokenRule_good P _ y hy)
                    (fun z hz => good_wgood (ih.expression z hz))))
                  (fun z hz => map_good (ih.expression z hz))))))
              (fun y hy => map_good (ih.expression y hy)))))))
          (fun u hu => map_good (thenc_gw (tokenRule_good P _ u hu)
            (fun w hw => good_wgood (orlast_good
              (map_good (thenc_gw (tokenRule_good P _ w hw)
                (fun y hy => good_wgood (orlast_good
                  (map_good (thenc_gw (tokenRule_good P _ y hy)
                    (fun z hz => good_wgood (orlast_good
                      (map_good (thenc_gw (tokenRule_good P _ z hz)
                        (fun z2 hz2 => good_wgood (ih.expression z2 hz2))))
                      (fun z2 hz2 => map_good (ih.expression z2 hz2))))))
                  (fun z hz => map_good (ih.expression z hz))))))
              (fun y hy => map_good (ih.expression y hy)))))))
          (fun u hu => map_good (thenc_gw (tokenRule_good P _ u hu)
            (fun w hw => good_wgood (orlast_good
              (map_good (thenc_gw (tokenRule_good P _ w hw)
                (fun y hy => good_wgood (orlast_good
                  (map_good (thenc_gw (tokenRule_good P _ y hy)
                    (fun z hz => good_wgood (orlast_good
                      (map_good (thenc_gw (tokenRule_good P _ z hz)
                        (fun z2 hz2 => good_wgood (orlast_good
                          (map_good (thenc_gw (tokenRule_good P _ z2 hz2)
                            (fun z3 hz3 =>
                              good_wgood (ih.expression z3 hz3))))
                          (fun z3 hz3 => map_good (ih.expression z3 hz3))))))
                      (fun z2 hz2 => map_good (ih.expression z2 hz2))))))
                  (fun z hz => map_good (ih.expression z hz))))))
              (fun y hy => map_good (ih.expression y hy))))))
    -- class_statement
    · intro pos hp
      exact toResult_ag (or_ag (or_ag (or_ag (or_ag (or_ag (or_ag
          (or_from_ag (map_good (ih.function pos hp))) hp
          (fun u hu => map_good (toval_gw
            (orlast_good (tokenRule_good P _ u hu)
              (fun w hw => map_good (ih.id w hw)))
            (fun w hw => or_none_wgood (good_wgood (ih.block w hw)))))) hp
          (fun u hu => map_good (thenc_gw
            (thenc_gw (tokenRule_good P _ u hu)
              (fun w hw => good_wgood (ih.one_arg w hw)))
            (fun w hw => good_wgood (ih.block w hw))))) hp
          (fun u hu => map_good (thenc_gw (ih.id u hu)
            (fun w hw => good_wgood (thenc_gw
              (thenc_gw (tokenRule_good P _ w hw)
                (fun y hy => good_wgood (ih.one_arg y hy)))
              (fun y hy => good_wgood (ih.block y hy))))))) hp
          (fun u hu => map_good (thenc_gw (map_good (thenc_gw
              (thenc_gw (tokenRule_good P _ u hu)
                (fun w hw => good_wgood (ih.enumeration w hw)))
              (fun w hw => good_wgood (tokenRule_good P _ w hw))))
            (fun w hw => good_wgood (ih.block w hw))))) hp
          (fun u hu => map_good (thenc_gw (thenc_gw (map_good (thenc_gw
              (thenc_gw (tokenRule_good P _ u hu)
                (fun w hw => good_wgood (ih.enumeration w hw)))
              (fun w hw => good_wgood (tokenRule_good P _ w hw))))
            (fun w hw => good_wgood (thenc_gw (tokenRule_good P _ w hw)
              (fun y hy => good_wgood (ih.one_arg y hy)))))
            (fun w hw => good_wgood (ih.block w hw))))) hp
          (fun u hu => map_good (thenc_gw (thenc_gw (thenc_gw
              (tokenRule_good P _ u hu)
              (fun w hw => good_wgood (ih.id w hw)))
            (fun w hw => good_wgood (ih.params w hw)))
            (fun w hw => good_wgood (ih.block w hw)))))
    -- class_body
    · intro pos hp
      exact map_good (thenc_wg
        (toval_ww (zom_wgood (fun u hu => good_wgood (ih.attribute_ u hu))
            fuel pos hp)
          (fun u hu => good_wgood (toResult_ag (or_ag (or_ag (or_ag
            (or_from_ag (map_good (thenc_gw (tokenRule_good P _ u hu)
              (fun w hw => good_wgood (tokenRule_good P _ w hw))))) hu
            (fun w hw => map_good (thenc_gw (tokenRule_good P _ w hw)
              (fun y hy => good_wgood (tokenRule_good P _ y hy))))) hu
            (fun w hw => tokenRule_good P _ w hw)) hu
            (fun w hw => tokenRule_good P _ w hw)))))
        (fun u hu => ih.class_statement u hu))
    -- attribute_
    · intro pos hp
      exact toResult_ag (or_ag (or_from_ag
        (map_good (map_good (thenc_gw (thenc_gw (thenc_gw
            (tovalm_gw (tokenRule_good P _ pos hp)
              (fun w hw => good_wgood (tokenRule_good P _ w hw)))
            (fun w hw => good_wgood (ih.id w hw)))
          (fun w hw => good_wgood (map_good (tmulti_g
            (thenc_gw (tokenRule_good P _ w hw)
              (fun y hy => good_wgood (map_good (toval_gw (ih.id y hy)
                (fun z hz => or_none_wgood (good_wgood (thenc_gw
                  (tokenRule_good P _ z hz)
                  (fun z2 hz2 => good_wgood (ih.atom z2 hz2)))))))))
            (fun y hy => good_wgood (thenc_gw (tokenRule_good P _ y hy)
              (fun z hz => good_wgood (map_good (toval_gw (ih.id z hz)
                (fun z2 hz2 => or_none_wgood (good_wgood (thenc_gw
                  (tokenRule_good P _ z2 hz2)
                  (fun z3 hz3 =>
                    good_wgood (ih.atom z3 hz3))))))))))))))
          (fun w hw => good_wgood (tokenRule_good P _ w hw)))))) hp
        (fun u hu => map_good (thenc_gw
          (tovalm_gw (tokenRule_good P _ u hu)
            (fun w hw => good_wgood (tokenRule_good P _ w hw)))
          (fun w hw => good_wgood (map_good (toval_gw (ih.id w hw)
            (fun y hy => or_none_wgood (good_wgood (thenc_gw
              (tokenRule_good P _ y hy)
              (fun z hz => good_wgood (ih.atom z hz)))))))))))
    -- one_arg
    · intro pos hp
      exact map_good (thenc_gw (thenc_gw (tokenRule_good P _ pos hp)
          (fun u hu => good_wgood (ih.id u hu)))
        (fun u hu => good_wgood (tokenRule_good P _ u hu)))
    -- while_statement
    · intro pos hp
      exact map_good (thenc_gw (map_good (thenc_gw (thenc_gw
          (thenc_gw (tokenRule_good P _ pos hp)
            (fun u hu => good_wgood (tokenRule_good P _ u hu)))
          (fun u hu => good_wgood (toResult_ag (or_ag (or_from_ag
            (map_good (ih.expression u hu))) hu
            (fun w hw => map_good (ih.assignment w hw))))))
          (fun u hu => good_wgood (tokenRule_good P _ u hu))))
        (fun u hu => good_wgood (ih.statement u hu)))
    -- for_statement
    · intro pos hp
      exact map_good (thenc_gw (map_good (thenc_gw (thenc_gw
          (map_good (thenc_gw (thenc_gw
            (thenc_gw (tokenRule_good P _ pos hp)
              (fun u hu => good_wgood (tokenRule_good P _ u hu)))
            (fun u hu => good_wgood (ih.id u hu)))
            (fun u hu => good_wgood (tokenRule_good P _ u hu))))
          (fun u hu => good_wgood (ih.expression u hu)))
          (fun u hu => good_wgood (tokenRule_good P _ u hu))))
        (fun u hu => good_wgood (ih.statement u hu)))
    -- class_def
    · intro pos hp
      exact map_good (thenc_gw (map_good (thenc_gw (toval_gw (thenc_gw
          (map_good (thenc_wg
            (thenc_ww (zom_wgood
                (fun u hu => good_wgood (ih.attribute_ u hu)) fuel pos hp)
              (fun u hu => or_val_wgood (good_wgood
                (tokenRule_good P _ u hu))))
            (fun u hu => tokenRule_good P _ u hu)))
          (fun u hu => good_wgood (ih.id u hu)))
          (fun u hu => or_none_wgood (good_wgood (thenc_gw
            (tokenRule_good P _ u hu)
            (fun w hw => good_wgood (ih.id w hw))))))
        (fun u hu => good_wgood (tokenRule_good P _ u hu))))
        (fun u hu => zom_wgood
          (fun w hw => good_wgood (ih.class_body w hw)) fuel u hu))

theorem good_success_bounds {T : Type} {pos len : Nat} {r : ParseResult T}
    (h : Good pos len r) :
    ∀ (v : T) (p : Nat), r = .Success v p → pos ≤ p ∧ p ≤ len := by
  intro v p he
  subst he
  exact ⟨Nat.le_of_lt h.1, h.2⟩

theorem good_success_strict {T : Type} {pos len : Nat} {r : ParseResult T}
    (h : Good pos len r) :
    ∀ (v : T) (p : Nat), r = .Success v p → pos < p ∧ p ≤ len := by
  intro v p he
  subst he
  exact h

theorem zom_soft {T : Type} {f : Nat → ParseResult T} {fu pos : Nat}
    (h : ∃ pf, f pos = .Fail pf ∨ f pos = .Error (.ReachedEOF pf)) :
    zero_or_more fu pos f = .Success [] pos := by
  obtain ⟨pf, h | h⟩ := h <;>
    simp [zero_or_more, ParseResult.then_multi_zip,
      ParseResult.then_multi_combine, ParseResult.merge, ParseResult.map, h]

theorem zom_props {T : Type} {len : Nat} {f : Nat → ParseResult T}
    (hf : ∀ u, u ≤ len → Wgood u len (f u)) (fu pos : Nat) (hp : pos ≤ len) :
    ZeroOrMoreOk fu pos f := by
  refine ⟨?_, zom_soft⟩
  obtain ⟨vals, q, he, h1, _⟩ := zom_success hf fu pos hp
  exact ⟨vals, q, he, h1⟩

theorem multiLoop_stable {K : Type} {f : Nat → ParseResult K} {len : Nat}
    (hf : ∀ p, p ≤ len → ∀ v q, f p = .Success v q → p < q ∧ q ≤ len) :
    ∀ (pos : Nat), pos ≤ len → ∀ (acc : List K) (fu : Nat),
      len + 1 - pos ≤ fu →
      ParseResult.multiLoop f fu pos acc
        = ParseResult.multiLoop f (len + 1 - pos) pos acc := by
  suffices H : ∀ n pos, len + 1 - pos = n → pos ≤ len →
      ∀ (acc : List K) (fu : Nat), n ≤ fu →
      ParseResult.multiLoop f fu pos acc
        = ParseResult.multiLoop f n pos acc by
    intro pos hp acc fu hfu
    exact H _ pos rfl hp acc fu hfu
  intro n
  induction n using Nat.strong_induction_on with
  | _ n IH =>
    intro pos hn hp acc fu hfu
    obtain ⟨fu', rfl⟩ : ∃ fu', fu = fu' + 1 := ⟨fu - 1, by omega⟩
    obtain ⟨n', rfl⟩ : ∃ n', n = n' + 1 := ⟨n - 1, by omega⟩
    simp only [ParseResult.multiLoop]
    cases hq : f pos with
    | Success v q =>
      obtain ⟨h1, h2⟩ := hf pos hp v q hq
      have hrec1 := IH (len + 1 - q) (by omega) q rfl h2 (acc ++ [v]) fu'
        (by omega)
      have hrec2 := IH (len + 1 - q) (by omega) q rfl h2 (acc ++ [v]) n'
        (by omega)
      exact hrec1.trans hrec2.symm
    | Fail q => rfl
    | Error e => rfl

/-- C6: for every token vector, every grammar rule of the parser and every
in-range entry position, a `Success` leaves the cursor at or beyond the
entry position and never past the token count. -/
theorem c6_cursor_bounds :
    ∀ (P : List Token) (fuel pos : Nat), pos ≤ P.length →
      (∀ v p, id P fuel pos = .Success v p → pos ≤ p ∧ p ≤ P.length) ∧
      (∀ v p, number P fuel pos = .Success v p → pos ≤ p ∧ p ≤ P.length) ∧
      (∀ v p, null P fuel pos = .Success v p → pos ≤ p ∧ p ≤ P.length) ∧
      (∀ v p, bool P fuel pos = .Success v p → pos ≤ p ∧ p ≤ P.length) ∧
      (∀ v p, char P fuel pos = .Success v p → pos ≤ p ∧ p ≤ P.length) ∧
      (∀ v p, string P fuel pos = .Success v p → pos ≤ p ∧ p ≤ P.length) ∧
      (∀ v p, number_expr P fuel pos = .Success v p → pos ≤ p ∧ p ≤ P.length) ∧
      (∀ v p, map_init P fuel pos = .Success v p → pos ≤ p ∧ p ≤ P.length) ∧
      (∀ v p, list_init P fuel pos = .Success v p → pos ≤ p ∧ p ≤ P.length) ∧
      (∀ v p, elvis P fuel pos = .Success v p → pos ≤ p ∧ p ≤ P.length) ∧
      (∀ v p, expression P fuel pos = .Success v p → pos ≤ p ∧ p ≤ P.length) ∧
      (∀ v p, enumeration P fuel pos = .Success v p → pos ≤ p ∧ p ≤ P.length) ∧
      (∀ v p, statement P fuel pos = .Success v p → pos ≤ p ∧ p ≤ P.length) ∧
      (∀ v p, file_unit P fuel pos = .Success v p → pos ≤ p ∧ p ≤ P.length) ∧
      (∀ v p, script P fuel pos = .Success v p → pos ≤ p ∧ p ≤ P.length) ∧
      (∀ v p, assignment P fuel pos = .Success v p → pos ≤ p ∧ p ≤ P.length) ∧
      (∀ v p, assignment_null P fuel pos = .Success v p →
        pos ≤ p ∧ p ≤ P.length) ∧
      (∀ v p, if_statement P fuel pos = .Success v p →
        pos ≤ p ∧ p ≤ P.length) ∧
      (∀ v p, block P fuel pos = .Success v p → pos ≤ p ∧ p ≤ P.length) ∧
      (∀ v p, params P fuel pos = .Success v p → pos ≤ p ∧ p ≤ P.length) ∧
      (∀ v p, call P fuel pos = .Success v p → pos ≤ p ∧ p ≤ P.length) ∧
      (∀ v p, collection_elem P fuel pos = .Success v p →
        pos ≤ p ∧ p ≤ P.length) ∧
      (∀ v p, import_variable P fuel pos = .Success v p →
        pos ≤ p ∧ p ≤ P.length) ∧
      (∀ v p, import_module P fuel pos = .Success v p →
        pos ≤ p ∧ p ≤ P.length) ∧
      (∀ v p, range P fuel pos = .Success v p → pos ≤ p ∧ p ≤ P.length) ∧
      (∀ v p, atom P fuel pos = .Success v p → pos ≤ p ∧ p ≤ P.length) ∧
      (∀ v p, function P fuel pos = .Success v p → pos ≤ p ∧ p ≤ P.length) ∧
      (∀ v p, logic_atom P fuel pos = .Success v p → pos ≤ p ∧ p ≤ P.length) ∧
      (∀ v p, compound_expr P fuel pos = .Success v p →
        pos ≤ p ∧ p ≤ P.length) ∧
      (∀ v p, logic P fuel pos = .Success v p → pos ≤ p ∧ p ≤ P.length) ∧
      (∀ v p, arith P fuel pos = .Success v p → pos ≤ p ∧ p ≤ P.length) ∧
      (∀ v p, class_statement P fuel pos = .Success v p →
        pos ≤ p ∧ p ≤ P.length) ∧
      (∀ v p, class_body P fuel pos = .Success v p → pos ≤ p ∧ p ≤ P.length) ∧
      (∀ v p, attribute_ P fuel pos = .Success v p → pos ≤ p ∧ p ≤ P.length) ∧
      (∀ v p, one_arg P fuel pos = .Success v p → pos ≤ p ∧ p ≤ P.length) ∧
      (∀ v p, while_statement P fuel pos = .Success v p →
        pos ≤ p ∧ p ≤ P.length) ∧
      (∀ v p, for_statement P fuel pos = .Success v p →
        pos ≤ p ∧ p ≤ P.length) ∧
      (∀ v p, class_def P fuel pos = .Success v p → pos ≤ p ∧ p ≤ P.length) := by
  intro P fuel pos hp
  have G := goodRulesAt P fuel
  exact ⟨good_success_bounds (G.id pos hp),
    good_success_bounds (G.number pos hp),
    good_success_bounds (G.null pos hp),
    good_success_bounds (G.bool pos hp),
    good_success_bounds (G.char pos hp),
    good_success_bounds (G.string pos hp),
    good_success_bounds (G.number_expr pos hp),
    good_success_bounds (G.map_init pos hp),
    good_success_bounds (G.list_init pos hp),
    good_success_bounds (G.elvis pos hp),
    good_success_bounds (G.expression pos hp),
    good_success_bounds (G.enumeration pos hp),
    good_success_bounds (G.statement pos hp),
    good_success_bounds (G.file_unit pos hp),
    good_success_bounds (G.script pos hp),
    good_success_bounds (G.assignment pos hp),
    good_success_bounds (G.assignment_null pos hp),
    good_success_bounds (G.if_statement pos hp),
    good_success_bounds (G.block pos hp),
    good_success_bounds (G.params pos hp),
    good_success_bounds (G.call pos hp),
    good_success_bounds (G.collection_elem pos hp),
    good_success_bounds (G.import_variable pos hp),
    good_success_bounds (G.import_module pos hp),
    good_success_bounds (G.range pos hp),
    good_success_bounds (G.atom pos hp),
    good_success_bounds (G.function pos hp),
    good_success_bounds (G.logic_atom pos hp),
    good_success_bounds (G.compound_expr pos hp),
    good_success_bounds (G.logic pos hp),
    good_success_bounds (G.arith pos hp),
    good_success_bounds (G.class_statement pos hp),
    good_success_bounds (G.class_body pos hp),
    good_success_bounds (G.attribute_ pos hp),
    good_success_bounds (G.one_arg pos hp),
    good_success_bounds (G.while_statement pos hp),
    good_success_bounds (G.for_statement pos hp),
    good_success_bounds (G.class_def pos hp)⟩

/-- Witness for C6 at the concrete one-token vector `[null]`: the null rule
succeeds at cursor 1, within bounds. -/
theorem c6_cursor_bounds_witness :
    (0 : Nat) ≤ 1 ∧ 1 ≤ ([Token.Null] : List Token).length :=
  (c6_cursor_bounds [Token.Null] 1 0 (by decide)).2.2.1
    AtomExpression.Null 1 rfl

/-- C7: for every token vector, every grammar rule `f` of the parser and
every in-range anchor, `zero_or_more` applied to `f` at the anchor always
returns a `Success` whose cursor is at or beyond the anchor (never `Fail`),
and when `f`'s first attempt fails softly or reaches end-of-input the
result is the empty vector exactly at the anchor. -/
theorem c7_zero_or_more :
    ∀ (P : List Token) (fuel pos : Nat), pos ≤ P.length →
      ZeroOrMoreOk fuel pos (id P fuel) ∧
      ZeroOrMoreOk fuel pos (number P fuel) ∧
      ZeroOrMoreOk fuel pos (null P fuel) ∧
      ZeroOrMoreOk fuel pos (bool P fuel) ∧
      ZeroOrMoreOk fuel pos (char P fuel) ∧
      ZeroOrMoreOk fuel pos (string P fuel) ∧
      ZeroOrMoreOk fuel pos (number_expr P fuel) ∧
      ZeroOrMoreOk fuel pos (map_init P fuel) ∧
      ZeroOrMoreOk fuel pos (list_init P fuel) ∧
      ZeroOrMoreOk fuel pos (elvis P fuel) ∧
      ZeroOrMoreOk fuel pos (expression P fuel) ∧
      ZeroOrMoreOk fuel pos (enumeration P fuel) ∧
      ZeroOrMoreOk fuel pos (statement P fuel) ∧
      ZeroOrMoreOk fuel pos (file_unit P fuel) ∧
      ZeroOrMoreOk fuel pos (script P fuel) ∧
      ZeroOrMoreOk fuel pos (assignment P fuel) ∧
      ZeroOrMoreOk fuel pos (assignment_null P fuel) ∧
      ZeroOrMoreOk fuel pos (if_statement P fuel) ∧
      ZeroOrMoreOk fuel pos (block P fuel) ∧
      ZeroOrMoreOk fuel pos (params P fuel) ∧
      ZeroOrMoreOk fuel pos (call P fuel) ∧
      ZeroOrMoreOk fuel pos (collection_elem P fuel) ∧
      ZeroOrMoreOk fuel pos (import_variable P fuel) ∧
      ZeroOrMoreOk fuel pos (import_module P fuel) ∧
      ZeroOrMoreOk fuel pos (range P fuel) ∧
      ZeroOrMoreOk fuel pos (atom P fuel) ∧
      ZeroOrMoreOk fuel pos (function P fuel) ∧
      ZeroOrMoreOk fuel pos (logic_atom P fuel) ∧
      ZeroOrMoreOk fuel pos (compound_expr P fuel) ∧
      ZeroOrMoreOk fuel pos (logic P fuel) ∧
      ZeroOrMoreOk fuel pos (arith P fuel) ∧
      ZeroOrMoreOk fuel pos (class_statement P fuel) ∧
      ZeroOrMoreOk fuel pos (class_body P fuel) ∧
      ZeroOrMoreOk fuel pos (attribute_ P fuel) ∧
      ZeroOrMoreOk fuel pos (one_arg P fuel) ∧
      ZeroOrMoreOk fuel pos (while_statement P fuel) ∧
      ZeroOrMoreOk fuel pos (for_statement P fuel) ∧
      ZeroOrMoreOk fuel pos (class_def P fuel) := by
  intro P fuel pos hp
  have G := goodRulesAt P fuel
  exact ⟨zom_props (fun u hu => good_wgood (G.id u hu)) fuel pos hp,
    zom_props (fun u hu => good_wgood (G.number u hu)) fuel pos hp,
    zom_props (fun u hu => good_wgood (G.null u hu)) fuel pos hp,
    zom_props (fun u hu => good_wgood (G.bool u hu)) fuel pos hp,
    zom_props (fun u hu => good_wgood (G.char u hu)) fuel pos hp,
    zom_props (fun u hu => good_wgood (G.string u hu)) fuel pos hp,
    zom_props (fun u hu => good_wgood (G.number_expr u hu)) fuel pos hp,
    zom_props (fun u hu => good_wgood (G.map_init u hu)) fuel pos hp,
    zom_props (fun u hu => good_wgood (G.list_init u hu)) fuel pos hp,
    zom_props (fun u hu => good_wgood (G.elvis u hu)) fuel pos hp,
    zom_props (fun u hu => good_wgood (G.expression u hu)) fuel pos hp,
    zom_props (fun u hu => good_wgood (G.enumeration u hu)) fuel pos hp,
    zom_props (fun u hu => good_wgood (G.statement u hu)) fuel pos hp,
    zom_props (fun u hu => good_wgood (G.file_unit u hu)) fuel pos hp,
    zom_props (fun u hu => good_wgood (G.script u hu)) fuel pos hp,
    zom_props (fun u hu => good_wgood (G.assignment u hu)) fuel pos hp,
    zom_props (fun u hu => good_wgood (G.assignment_null u hu)) fuel pos hp,
    zom_props (fun u hu => good_wgood (G.if_statement u hu)) fuel pos hp,
    zom_props (fun u hu => good_wgood (G.block u hu)) fuel pos hp,
    zom_props (fun u hu => good_wgood (G.params u hu)) fuel pos hp,
    zom_props (fun u hu => good_wgood (G.call u hu)) fuel pos hp,
    zom_props (fun u hu => good_wgood (G.collection_elem u hu)) fuel pos hp,
    zom_props (fun u hu => good_wgood (G.import_variable u hu)) fuel pos hp,
    zom_props (fun u hu => good_wgood (G.import_module u hu)) fuel pos hp,
    zom_props (fun u hu => good_wgood (G.range u hu)) fuel pos hp,
    zom_props (fun u hu => good_wgood (G.atom u hu)) fuel pos hp,
    zom_props (fun u hu => good_wgood (G.function u hu)) fuel pos hp,
    zom_props (fun u hu => good_wgood (G.logic_atom u hu)) fuel pos hp,
    zom_props (fun u hu => good_wgood (G.compound_expr u hu)) fuel pos hp,
    zom_props (fun u hu => good_wgood (G.logic u hu)) fuel pos hp,
    zom_props (fun u hu => good_wgood (G.arith u hu)) fuel pos hp,
    zom_props (fun u hu => good_wgood (G.class_statement u hu)) fuel pos hp,
    zom_props (fun u hu => good_wgood (G.class_body u hu)) fuel pos hp,
    zom_props (fun u hu => good_wgood (G.attribute_ u hu)) fuel pos hp,
    zom_props (fun u hu => good_wgood (G.one_arg u hu)) fuel pos hp,
    zom_props (fun u hu => good_wgood (G.while_statement u hu)) fuel pos hp,
    zom_props (fun u hu => good_wgood (G.for_statement u hu)) fuel pos hp,
    zom_props (fun u hu => good_wgood (G.class_def u hu)) fuel pos hp⟩

/-- Witness for C7 at the concrete one-token vector `[null]` and the null
rule. -/
theorem c7_zero_or_more_witness :
    ZeroOrMoreOk 1 0 (null [Token.Null] 1) :=
  (c7_zero_or_more [Token.Null] 1 0 (by decide)).2.2.1

/-- C10: the greedy repetition loops terminate — every `Success` of every
grammar rule strictly increases the cursor and is bounded by the token
count (first part), and consequently the loop of `then_multi_combine` (on
which `zero_or_more` and `one_or_more` are built) reaches its fixed point
within `tokenCount + 1 - anchor` iterations: any fuel at or above that
bound computes the same result (second part). -/
theorem c10_termination :
    (∀ (P : List Token) (fuel pos : Nat), pos ≤ P.length →
      (∀ v p, id P fuel pos = .Success v p → pos < p ∧ p ≤ P.length) ∧
      (∀ v p, number P fuel pos = .Success v p → pos < p ∧ p ≤ P.length) ∧
      (∀ v p, null P fuel pos = .Success v p → pos < p ∧ p ≤ P.length) ∧
      (∀ v p, bool P fuel pos = .Success v p → pos < p ∧ p ≤ P.length) ∧
      (∀ v p, char P fuel pos = .Success v p → pos < p ∧ p ≤ P.length) ∧
      (∀ v p, string P fuel pos = .Success v p → pos < p ∧ p ≤ P.length) ∧
      (∀ v p, number_expr P fuel pos = .Success v p →
        pos < p ∧ p ≤ P.length) ∧
      (∀ v p, map_init P fuel pos = .Success v p → pos < p ∧ p ≤ P.length) ∧
      (∀ v p, list_init P fuel pos = .Success v p → pos < p ∧ p ≤ P.length) ∧
      (∀ v p, elvis P fuel pos = .Success v p → pos < p ∧ p ≤ P.length) ∧
      (∀ v p, expression P fuel pos = .Success v p → pos < p ∧ p ≤ P.length) ∧
      (∀ v p, enumeration P fuel pos = .Success v p →
        pos < p ∧ p ≤ P.length) ∧
      (∀ v p, statement P fuel pos = .Success v p → pos < p ∧ p ≤ P.length) ∧
      (∀ v p, file_unit P fuel pos = .Success v p → pos < p ∧ p ≤ P.length) ∧
      (∀ v p, script P fuel pos = .Success v p → pos < p ∧ p ≤ P.length) ∧
      (∀ v p, assignment P fuel pos = .Success v p → pos < p ∧ p ≤ P.length) ∧
      (∀ v p, assignment_null P fuel pos = .Success v p →
        pos < p ∧ p ≤ P.length) ∧
      (∀ v p, if_statement P fuel pos = .Success v p →
        pos < p ∧ p ≤ P.length) ∧
      (∀ v p, block P fuel pos = .Success v p → pos < p ∧ p ≤ P.length) ∧
      (∀ v p, params P fuel pos = .Success v p → pos < p ∧ p ≤ P.length) ∧
      (∀ v p, call P fuel pos = .Success v p → pos < p ∧ p ≤ P.length) ∧
      (∀ v p, collection_elem P fuel pos = .Success v p →
        pos < p ∧ p ≤ P.length) ∧
      (∀ v p, import_variable P fuel pos = .Success v p →
        pos < p ∧ p ≤ P.length) ∧
      (∀ v p, import_module P fuel pos = .Success v p →
        pos < p ∧ p ≤ P.length) ∧
      (∀ v p, range P fuel pos = .Success v p → pos < p ∧ p ≤ P.length) ∧
      (∀ v p, atom P fuel pos = .Success v p → pos < p ∧ p ≤ P.length) ∧
      (∀ v p, function P fuel pos = .Success v p → pos < p ∧ p ≤ P.length) ∧
      (∀ v p, logic_atom P fuel pos = .Success v p → pos < p ∧ p ≤ P.length) ∧
      (∀ v p, compound_expr P fuel pos = .Success v p →
        pos < p ∧ p ≤ P.length) ∧
      (∀ v p, logic P fuel pos = .Success v p → pos < p ∧ p ≤ P.length) ∧
      (∀ v p, arith P fuel pos = .Success v p → pos < p ∧ p ≤ P.length) ∧
      (∀ v p, class_statement P fuel pos = .Success v p →
        pos < p ∧ p ≤ P.length) ∧
      (∀ v p, class_body P fuel pos = .Success v p → pos < p ∧ p ≤ P.length) ∧
      (∀ v p, attribute_ P fuel pos = .Success v p →
        pos < p ∧ p ≤ P.length) ∧
      (∀ v p, one_arg P fuel pos = .Success v p → pos < p ∧ p ≤ P.length) ∧
      (∀ v p, while_statement P fuel pos = .Success v p →
        pos < p ∧ p ≤ P.length) ∧
      (∀ v p, for_statement P fuel pos = .Success v p →
        pos < p ∧ p ≤ P.length) ∧
      (∀ v p, class_def P fuel pos = .Success v p →
        pos < p ∧ p ≤ P.length)) ∧
    (∀ (K : Type) (f : Nat → ParseResult K) (len : Nat),
      (∀ p, p ≤ len → ∀ v q, f p = .Success v q → p < q ∧ q ≤ len) →
      ∀ pos, pos ≤ len → ∀ (acc : List K) (fu : Nat), len + 1 - pos ≤ fu →
        ParseResult.multiLoop f fu pos acc
          = ParseResult.multiLoop f (len + 1 - pos) pos acc) := by
  constructor
  · intro P fuel pos hp
    have G := goodRulesAt P fuel
    exact ⟨good_success_strict (G.id pos hp),
      good_success_strict (G.number pos hp),
      good_success_strict (G.null pos hp),
      good_success_strict (G.bool pos hp),
      good_success_strict (G.char pos hp),
      good_success_strict (G.string pos hp),
      good_success_strict (G.number_expr pos hp),
      good_success_strict (G.map_init pos hp),
      good_success_strict (G.list_init pos hp),
      good_success_strict (G.elvis pos hp),
      good_success_strict (G.expression pos hp),
      good_success_strict (G.enumeration pos hp),
      good_success_strict (G.statement pos hp),
      good_success_strict (G.file_unit pos hp),
      good_success_strict (G.script pos hp),
      good_success_strict (G.assignment pos hp),
      good_success_strict (G.assignment_null pos hp),
      good_success_strict (G.if_statement pos hp),
      good_success_strict (G.block pos hp),
      good_success_strict (G.params pos hp),
      good_success_strict (G.call pos hp),
      good_success_strict (G.collection_elem pos hp),
      good_success_strict (G.import_variable pos hp),
      good_success_strict (G.import_module pos hp),
      good_success_strict (G.range pos hp),
      good_success_strict (G.atom pos hp),
      good_success_strict (G.function pos hp),
      good_success_strict (G.logic_atom pos hp),
      good_success_strict (G.compound_expr pos hp),
      good_success_strict (G.logic pos hp),
      good_success_strict (G.arith pos hp),
      good_success_strict (G.class_statement pos hp),
      good_success_strict (G.class_body pos hp),
      good_success_strict (G.attribute_ pos hp),
      good_success_strict (G.one_arg pos hp),
      good_success_strict (G.while_statement pos hp),
      good_success_strict (G.for_statement pos hp),
      good_success_strict (G.class_def pos hp)⟩
  · intro K f len hf pos hp acc fu hfu
    exact multiLoop_stable hf pos hp acc fu hfu

/-- Witness for C10 at concrete data: the null rule's strict progress on
`[null]`, and loop stabilisation for an always-failing rule. -/
theorem c10_termination_witness :
    ((0 : Nat) < 1 ∧ 1 ≤ ([Token.Null] : List Token).length) ∧
    ParseResult.multiLoop (fun p => (ParseResult.Fail p : ParseResult Nat))
        5 0 []
      = ParseResult.multiLoop (fun p => (ParseResult.Fail p : ParseResult Nat))
        (0 + 1 - 0) 0 [] :=
  ⟨(c10_termination.1 [Token.Null] 1 0 (by decide)).2.2.1
      AtomExpression.Null 1 rfl,
    c10_termination.2 Nat (fun p => .Fail p) 0
      (fun p hp v q h => ParseResult.noConfusion h) 0 (le_refl 0) [] 5
      (by decide)⟩

end RustyWren
